import Mathlib

/-!
# StatsService (cmds/statsd/src/StatsService.cpp)

A shallow embedding of the statsd binder front-end: the shell-command
transaction of `onTransact`, the command shell (`command`, `doLoadConfig`,
`doPrintStatsLog`, `printCmdHelp`), the four calls guarded by the caller's uid,
and the death recipient of the companion service.

The service runs against a `World`: the fields of the service object together
with the chronological list of the calls it made on its collaborators (log
lines, stdio calls, binder calls).  What the platform answers during one call
(the calling uid, the service manager, whether a descriptor can be opened, the
bytes on a descriptor, ...) is an `Env`, over which every theorem quantifies.
A call that can dereference a null pointer ends in an `Outcome`: it returns, or
the process dies on the spot.
-/

namespace Statsd

/-! ## Platform types and constants -/

/-- The `status_t` of utils/Errors.h, a 32-bit signed integer. -/
abbrev status_t := Int

/-- The value `OK = 0` of utils/Errors.h. -/
def NO_ERROR : status_t := 0

/-- The value `-ENOMEM` of utils/Errors.h. -/
def NO_MEMORY : status_t := -12

/-- The value `INT32_MIN` of utils/Errors.h. -/
def UNKNOWN_ERROR : status_t := -2147483648

/-- The uid of the system server, private/android_filesystem_config.h. -/
def AID_SYSTEM : Nat := 1000

/-- The transaction code `B_PACK_CHARS('_','C','M','D')` of binder/IBinder.h. -/
def SHELL_COMMAND_TRANSACTION : Nat := 0x5f434d44

/-- A remote binder object (what a non-null `sp<IBinder>` points to); an interface
obtained by `interface_cast` from it is identified with it. -/
structure IBinder where
  node : Nat
deriving DecidableEq, Repr

/-- What a non-null `sp<StatsLogProcessor>` points to. -/
structure StatsLogProcessor where
  addr : Nat
deriving DecidableEq, Repr

/-- A parsed `StatsdConfig` message, identified by what `SerializeAsString` gives for it. -/
structure StatsdConfig where
  serialized : String
deriving DecidableEq, Repr

/-- An open stdio stream (what a non-null `FILE*` points to): the descriptor it was opened on and
the rank of the `fdopen` call that created it, which tells apart two streams on one descriptor. -/
structure FILE where
  fileno : Int
  serial : Nat
deriving DecidableEq, Repr

/-- The `binder::Status` of binder/Status.h: an exception code and a message. -/
structure Status where
  exceptionCode : Int
  message : String
deriving DecidableEq, Repr

namespace Status

/-- The value `EX_NONE` of binder/Status.h. -/
def EX_NONE : Int := 0

/-- The value `EX_SECURITY` of binder/Status.h. -/
def EX_SECURITY : Int := -1

/-- The value `EX_NULL_POINTER` of binder/Status.h. -/
def EX_NULL_POINTER : Int := -4

/-- The function `Status::ok()`. -/
def ok : Status := ⟨EX_NONE, ""⟩

/-- The function `Status::fromExceptionCode(code, message)`. -/
def fromExceptionCode (code : Int) (message : String) : Status := ⟨code, message⟩

end Status

/-- The pull codes of `StatsPullerManager` that the service uses. -/
inductive PullCode where
  | KERNEL_WAKELOCKS
deriving DecidableEq, Repr

/-- One call made by the service on a collaborator, with the arguments it passed.  A call through
a smart pointer carries the object it reached; `fflush` and `fclose` carry the `FILE*` they were
given (`none` is `NULL`). -/
inductive Event where
  | ALOGD (fmt : String) (args : List String)
  | ALOGW (fmt : String) (args : List String)
  | fprintf (stream : FILE) (text : String)
  | fflush (stream : Option FILE)
  | fclose (stream : Option FILE)
  | send (resultReceiver : IBinder) (code : status_t)
  | readStatsLogs (out : FILE) (tag : String) (msec : Int)
  | ReadFdToString (fd : Int)
  | UpdateConfig (processor : StatsLogProcessor) (slot : Int) (config : StatsdConfig)
  | pull (code : PullCode)
  | defaultServiceManager
  | checkService (name : String)
  | statsdReady (statsCompanion : IBinder)
  | linkToDeath (binder : IBinder)
deriving DecidableEq, Repr

/-- The service object and its surroundings: the calls made so far, oldest first; the field
`m_processor`; the companion reference held by `mAnomalyMonitor` (the PeerReference of the
specification); the number of `fdopen` calls made so far. -/
structure World where
  trace : List Event
  m_processor : Option StatsLogProcessor
  mStatsCompanionService : Option IBinder
  opens : Nat
deriving DecidableEq, Repr

/-- The state right after `StatsService::StatsService`: nothing called yet, no processor, and a
fresh `AnomalyMonitor` holding no companion. -/
def World.initial : World := ⟨[], none, none, 0⟩

/-- How a call ends: it returns a value and leaves a state, or the process dies (a null pointer
is dereferenced, `fclose(NULL)` is called) and what is left is the state at that point. -/
inductive Outcome (α : Type) where
  | returned (value : α) (w : World)
  | died (w : World)

namespace Outcome

/-- The state a call leaves, whether it returned or the process died in it. -/
def world {α : Type} : Outcome α → World
  | returned _ w => w
  | died w => w

/-- The value a call returned, if it returned. -/
def value? {α : Type} : Outcome α → Option α
  | returned a _ => some a
  | died _ => none

/-- Sequencing: the rest of the code runs only if the call returned. -/
def bind {α β : Type} (o : Outcome α) (k : α → World → Outcome β) : Outcome β :=
  match o with
  | returned a w => k a w
  | died w => died w

end Outcome

/-- The `IServiceManager` interface, as far as the service uses it. -/
structure IServiceManager where
  checkService : String → Option IBinder

/-- The `Parcel` of a transaction, as far as `onTransact` reads it: a read position, and for every
position what each read returns there together with the position after the read. -/
structure Parcel where
  mDataPos : Nat
  fileDescriptorAt : Nat → Int × Nat
  int32At : Nat → Int × Nat
  string16At : Nat → String × Nat
  strongBinderAt : Nat → Option IBinder × Nat
  dataAvailAt : Nat → Nat

namespace Parcel

/-- The method `Parcel::readFileDescriptor`. -/
def readFileDescriptor (p : Parcel) : Int × Parcel :=
  ((p.fileDescriptorAt p.mDataPos).1, { p with mDataPos := (p.fileDescriptorAt p.mDataPos).2 })

/-- The method `Parcel::readInt32`. -/
def readInt32 (p : Parcel) : Int × Parcel :=
  ((p.int32At p.mDataPos).1, { p with mDataPos := (p.int32At p.mDataPos).2 })

/-- The method `Parcel::readString16`, followed by the conversion `String8(...)`. -/
def readString16 (p : Parcel) : String × Parcel :=
  ((p.string16At p.mDataPos).1, { p with mDataPos := (p.string16At p.mDataPos).2 })

/-- The method `Parcel::readStrongBinder`, followed by `asInterface`. -/
def readStrongBinder (p : Parcel) : Option IBinder × Parcel :=
  ((p.strongBinderAt p.mDataPos).1, { p with mDataPos := (p.strongBinderAt p.mDataPos).2 })

/-- The method `Parcel::dataAvail`. -/
def dataAvail (p : Parcel) : Nat := p.dataAvailAt p.mDataPos

end Parcel

/-- What the platform and the collaborators outside this file answer during one call.
* `callingUid`: `IPCThreadState::self()->getCallingUid()`;
* `defaultServiceManager`: the result of `defaultServiceManager()`;
* `LONG_BIT`: the width of `long`;
* `fdopenOk n fd mode`: whether the `fdopen(fd, mode)` made after `n` earlier `fdopen` calls succeeds;
* `ReadFdToString fd`: the content read from `fd`, or `none` when the read fails;
* `ParseFromString content`: the message `content` parses to, or `none` when parsing fails;
* `readStatsLogs out tag msec`: what `DropboxReader::readStatsLogs` returns;
* `pull code`: what `StatsPullerManager::pull` returns;
* `BnStatsManager_onTransact`: the generated dispatcher of the base class. -/
structure Env where
  callingUid : Nat
  defaultServiceManager : Option IServiceManager
  LONG_BIT : Nat
  fdopenOk : Nat → Int → String → Bool
  ReadFdToString : Int → Option String
  ParseFromString : String → Option StatsdConfig
  readStatsLogs : FILE → String → Int → status_t
  pull : PullCode → String
  BnStatsManager_onTransact : Nat → Parcel → World → Outcome status_t

/-- The largest `long`. -/
def LONG_MAX (env : Env) : Int := 2 ^ (env.LONG_BIT - 1) - 1

/-- The smallest `long`. -/
def LONG_MIN (env : Env) : Int := -(2 ^ (env.LONG_BIT - 1))

/-! ## Calls on collaborators -/

/-- Records one call at the end of the trace. -/
def emit (e : Event) (w : World) : World := { w with trace := w.trace ++ [e] }

/-- The libc `fdopen(fd, mode)`: `none` is `NULL`; a stream that opens is a new one. -/
def fdopen (env : Env) (fd : Int) (mode : String) (w : World) : Option FILE × World :=
  if env.fdopenOk w.opens fd mode then
    (some ⟨fd, w.opens⟩, { w with opens := w.opens + 1 })
  else
    (none, { w with opens := w.opens + 1 })

/-- The C locale `isspace`. -/
def isspace (c : Char) : Bool :=
  c = ' ' || c = '\t' || c = '\n' || c = '\x0b' || c = '\x0c' || c = '\r'

/-- The C locale `isdigit`. -/
def isdigit (c : Char) : Bool := '0' ≤ c && c ≤ '9'

/-- The value of the longest run of decimal digits at the head of `s`, continuing from `acc`. -/
def strtolDigits (acc : Nat) : List Char → Nat
  | [] => acc
  | c :: cs => if isdigit c then strtolDigits (acc * 10 + (c.toNat - '0'.toNat)) cs else acc

/-- The libc `strtol(s, NULL, 10)`: white space is skipped, one sign is read, then the longest run
of digits; no digits give 0, and a value out of the range of `long` gives the nearest bound. -/
def strtol (env : Env) (s : String) : Int :=
  match s.toList.dropWhile isspace with
  | '-' :: cs => max (LONG_MIN env) (-(strtolDigits 0 cs : Int))
  | '+' :: cs => min (LONG_MAX env) (strtolDigits 0 cs : Int)
  | cs => min (LONG_MAX env) (strtolDigits 0 cs : Int)

/-- The characters of a text up to its first NUL: what C code sees through a `const char*`. -/
def c_str (s : String) : List Char := s.toList.takeWhile (fun c => c ≠ '\x00')

/-- The libc `strcmp`, on the characters up to the terminating NUL. -/
def strcmp : List Char → List Char → Int
  | [], [] => 0
  | [], _ :: _ => -1
  | _ :: _, [] => 1
  | a :: as, b :: bs => if a = b then strcmp as bs else if a < b then -1 else 1

/-- The method `String8::string` (and `std::string::c_str`), read as a C string: the text up to
its first NUL. -/
def String8.string (s : String) : String := ⟨c_str s⟩

/-- The method `String8::compare`, which is `strcmp` on the two C strings. -/
def String8.compare (a b : String) : Int := strcmp (c_str a) (c_str b)

/-- The libc `fflush(f)`; `fflush(NULL)` flushes every open output stream and returns. -/
def fflush (f : Option FILE) (w : World) : World := emit (.fflush f) w

/-- The libc `fclose(f)`; the process dies in `fclose(NULL)`. -/
def fclose (f : Option FILE) (w : World) : Outcome Unit :=
  match f with
  | some _ => .returned () (emit (.fclose f) w)
  | none => .died (emit (.fclose f) w)

/-- The call `resultReceiver->send(code)`; the process dies on a null receiver. -/
def IResultReceiver.send (resultReceiver : Option IBinder) (code : status_t) (w : World) :
    Outcome Unit :=
  match resultReceiver with
  | some receiver => .returned () (emit (.send receiver code) w)
  | none => .died w

/-- The call `DropboxReader::readStatsLogs(out, tag, msec)`. -/
def DropboxReader.readStatsLogs (env : Env) (out : FILE) (tag : String) (msec : Int)
    (w : World) : status_t × World :=
  (env.readStatsLogs out tag msec, emit (.readStatsLogs out tag msec) w)

/-- Modelled from the spec: `AnomalyMonitor::setStatsCompanionService` (AnomalyMonitor.cpp, a file
of the daemon next to this one) "stores the handle as the current PeerReference", and called with
`nullptr` "sets PeerReference to absent, regardless of its prior value". -/
def AnomalyMonitor.setStatsCompanionService (statsCompanion : Option IBinder) (w : World) : World :=
  { w with mStatsCompanionService := statsCompanion }

/-! ## StatsService -/

/-- The method `StatsService::setProcessor`. -/
def setProcessor (main_processor : Option StatsLogProcessor) (w : World) : status_t × World :=
  let w := { w with m_processor := main_processor }
  let w := emit (.ALOGD "stats service set to processor %p" [reprStr w.m_processor]) w
  (NO_ERROR, w)

/-- The method `StatsService::printCmdHelp`. -/
def printCmdHelp (out : FILE) (w : World) : World :=
  let w := emit (.fprintf out "Usage:\n") w
  let w := emit (.fprintf out "\t print-stats-log [tag_required] [timestamp_nsec_optional]\n") w
  emit (.fprintf out
    ("\t config\t Loads a new config from command-line (must be proto in wire-encoded " ++
      "format).\n")) w

/-- The method `StatsService::doPrintStatsLog`. -/
def doPrintStatsLog (env : Env) (out : FILE) (args : List String) (w : World) :
    status_t × World :=
  let msec : Int := 0
  let msec := if args.length > 2 then strtol env (String8.string (args.getD 2 "")) else msec
  DropboxReader.readStatsLogs env out (String8.string (args.getD 1 "")) msec w

/-- The method `StatsService::doLoadConfig`.  The call `m_processor->UpdateConfig(0, config)` goes
through `m_processor` without a test: with a null `m_processor` the process dies there. -/
def doLoadConfig (env : Env) (fin : FILE) (w : World) : Outcome status_t :=
  let w := emit (.ReadFdToString fin.fileno) w
  match env.ReadFdToString fin.fileno with
  | none => .returned UNKNOWN_ERROR w
  | some content =>
    match env.ParseFromString content with
    | some config =>
      let w := emit (.ALOGD "Config parsed from command line: %s"
        [String8.string config.serialized]) w
      match w.m_processor with
      | some processor =>
        let w := emit (.UpdateConfig processor 0 config) w
        .returned NO_ERROR w
      | none => .died w
    | none =>
      let w := emit (.ALOGD "Config failed to be parsed" []) w
      .returned UNKNOWN_ERROR w

/-- The method `StatsService::command`. -/
def command (env : Env) (fin out _err : FILE) (args : List String) (w : World) :
    Outcome status_t :=
  if args.length > 0 then
    if String8.compare (args.getD 0 "") "print-stats-log" = 0 ∧ args.length > 1 then
      .returned (doPrintStatsLog env out args w).1 (doPrintStatsLog env out args w).2
    else if String8.compare (args.getD 0 "") "config" = 0 then
      doLoadConfig env fin w
    else
      .returned NO_ERROR (printCmdHelp out w)
  else
    .returned NO_ERROR (printCmdHelp out w)

/-- The argument loop of `onTransact`:
`for (int i = 0; i < argc && data.dataAvail() > 0; i++) args.add(String8(data.readString16()))`. -/
def readArgs (argc : Int) (i : Nat) (data : Parcel) (args : List String) :
    List String × Parcel :=
  if (i : Int) < argc ∧ data.dataAvail > 0 then
    readArgs argc (i + 1) data.readString16.2 (args ++ [data.readString16.1])
  else
    (args, data)
termination_by (argc - i).toNat
decreasing_by omega

/-- The block `if (f != NULL) { fflush(g); fclose(g); }`, as it stands three times at the end of
the shell-command case of `onTransact`: lines 88-91 with `f`, `g` both `fin`, lines 92-95 with
both `fout`, and lines 96-99 with `f` being `fout` and `g` being `ferr`. -/
def flushClose (f g : Option FILE) (w : World) : Outcome Unit :=
  if f ≠ none then fclose g (fflush g w) else .returned () w

/-- The method `StatsService::onTransact`. -/
def onTransact (env : Env) (code : Nat) (data : Parcel) (w : World) : Outcome status_t :=
  if code = SHELL_COMMAND_TRANSACTION then
    let (fdIn, data) := data.readFileDescriptor
    let (fdOut, data) := data.readFileDescriptor
    let (fdErr, data) := data.readFileDescriptor
    let (argc, data) := data.readInt32
    let (args, data) := readArgs argc 0 data []
    let (_shellCallback, data) := data.readStrongBinder
    let (resultReceiver, _) := data.readStrongBinder
    let (fin, w) := fdopen env fdIn "r" w
    let (fout, w) := fdopen env fdOut "w" w
    let (ferr, w) := fdopen env fdErr "w" w
    Outcome.bind
      (match fin, fout, ferr with
        | some fi, some fo, some fe =>
          Outcome.bind (command env fi fo fe args w) fun err w =>
            IResultReceiver.send resultReceiver err w
        | _, _, _ => IResultReceiver.send resultReceiver NO_MEMORY w)
      fun _ w =>
    Outcome.bind (if fin ≠ none then fclose fin (fflush fin w) else .returned () w) fun _ w =>
    Outcome.bind (if fout ≠ none then fclose fout (fflush fout w) else .returned () w) fun _ w =>
    Outcome.bind (if fout ≠ none then fclose ferr (fflush ferr w) else .returned () w) fun _ w =>
    .returned NO_ERROR w
  else
    env.BnStatsManager_onTransact code data w

/-- The method `StatsService::dump`. -/
def dump (env : Env) (fd : Int) (args : List String) (w : World) : status_t × World :=
  match fdopen env fd "w" w with
  | (none, w) => (NO_MEMORY, w)
  | (some out, w) =>
    let w := emit (.fprintf out "StatsService::dump:") w
    let w := emit (.ALOGD "StatsService::dump:" []) w
    let w := args.foldl
      (fun w arg => emit (.ALOGD "   %s" [String8.string arg])
        (emit (.fprintf out (" " ++ String8.string arg)) w)) w
    let w := emit (.fprintf out "\n") w
    let w := emit (.fclose (some out)) w
    (NO_ERROR, w)

/-- The method `StatsService::informAnomalyAlarmFired`. -/
def informAnomalyAlarmFired (env : Env) (w : World) : Status × World :=
  let w := emit (.ALOGD "StatsService::informAnomalyAlarmFired was called" []) w
  if env.callingUid ≠ AID_SYSTEM then
    (Status.fromExceptionCode Status.EX_SECURITY
      "Only system uid can call informAnomalyAlarmFired", w)
  else
    let w := emit (.ALOGD "StatsService::informAnomalyAlarmFired succeeded" []) w
    (Status.ok, w)

/-- The method `StatsService::informPollAlarmFired`. -/
def informPollAlarmFired (env : Env) (w : World) : Status × World :=
  let w := emit (.ALOGD "StatsService::informPollAlarmFired was called" []) w
  if env.callingUid ≠ AID_SYSTEM then
    (Status.fromExceptionCode Status.EX_SECURITY
      "Only system uid can call informPollAlarmFired", w)
  else
    let w := emit (.ALOGD "StatsService::informPollAlarmFired succeeded" []) w
    let output := env.pull .KERNEL_WAKELOCKS
    let w := emit (.pull .KERNEL_WAKELOCKS) w
    let w := emit (.ALOGD "%s" [String8.string output]) w
    let w := emit (.ALOGD "%d" [toString output.length]) w
    (Status.ok, w)

/-- The method `StatsService::getStatsCompanionService`. -/
def getStatsCompanionService (env : Env) (w : World) : Option IBinder × World :=
  let w := emit .defaultServiceManager w
  match env.defaultServiceManager with
  | some sm =>
    let w := emit (.checkService "statscompanion") w
    match sm.checkService "statscompanion" with
    | none => (none, emit (.ALOGW "statscompanion service unavailable!" []) w)
    | some statsCompanion => (some statsCompanion, w)
  | none => (none, w)

/-- The method `StatsService::sayHiToStatsCompanion`. -/
def sayHiToStatsCompanion (env : Env) (w : World) : World :=
  match getStatsCompanionService env w with
  | (some statsCompanion, w) =>
    let w := emit (.ALOGD "Telling statsCompanion that statsd is ready" []) w
    emit (.statsdReady statsCompanion) w
  | (none, w) => emit (.ALOGD "Could not access statsCompanion" []) w

/-- The method `StatsService::systemRunning`. -/
def systemRunning (env : Env) (w : World) : Status × World :=
  if env.callingUid ≠ AID_SYSTEM then
    (Status.fromExceptionCode Status.EX_SECURITY "Only system uid can call systemRunning", w)
  else
    let w := emit (.ALOGD "StatsService::systemRunning" []) w
    let w := sayHiToStatsCompanion env w
    (Status.ok, w)

/-- The method `StatsService::statsCompanionReady`. -/
def statsCompanionReady (env : Env) (w : World) : Status × World :=
  let w := emit (.ALOGD "StatsService::statsCompanionReady was called" []) w
  if env.callingUid ≠ AID_SYSTEM then
    (Status.fromExceptionCode Status.EX_SECURITY
      "Only system uid can call statsCompanionReady", w)
  else
    match getStatsCompanionService env w with
    | (none, w) =>
      (Status.fromExceptionCode Status.EX_NULL_POINTER
        "statscompanion unavailable despite it contacting statsd!", w)
    | (some statsCompanion, w) =>
      let w := emit (.ALOGD "StatsService::statsCompanionReady linking to statsCompanion." []) w
      let w := emit (.linkToDeath statsCompanion) w
      let w := AnomalyMonitor.setStatsCompanionService (some statsCompanion) w
      (Status.ok, w)

/-- The method `StatsdDeathRecipient::binderDied`. -/
def binderDied (_who : IBinder) (w : World) : World :=
  let w := emit (.ALOGW "statscompanion service died" []) w
  AnomalyMonitor.setStatsCompanionService none w

/-! ## Sequences of operations -/

/-- One entry into the service: a call of one of its methods, with what the platform answers
during that call, or the death callback for the binder `who`. -/
inductive Op where
  | setProcessor (main_processor : Option StatsLogProcessor)
  | shellCommand (env : Env) (data : Parcel)
  | dump (env : Env) (fd : Int) (args : List String)
  | informAnomalyAlarmFired (env : Env)
  | informPollAlarmFired (env : Env)
  | systemRunning (env : Env)
  | sayHiToStatsCompanion (env : Env)
  | statsCompanionReady (env : Env)
  | binderDied (who : IBinder)

/-- The state after one operation; when the process dies in it, the state at that point. -/
def step (w : World) : Op → World
  | .setProcessor p => (setProcessor p w).2
  | .shellCommand env data => (onTransact env SHELL_COMMAND_TRANSACTION data w).world
  | .dump env fd args => (dump env fd args w).2
  | .informAnomalyAlarmFired env => (informAnomalyAlarmFired env w).2
  | .informPollAlarmFired env => (informPollAlarmFired env w).2
  | .systemRunning env => (systemRunning env w).2
  | .sayHiToStatsCompanion env => sayHiToStatsCompanion env w
  | .statsCompanionReady env => (statsCompanionReady env w).2
  | .binderDied who => binderDied who w

/-- The state after a sequence of operations, run in order. -/
def run (w : World) (ops : List Op) : World := ops.foldl step w

/-- The companion that the service lookup yields under `env`: what `checkService` answers for
"statscompanion", and nothing when there is no service manager. -/
def lookup (env : Env) : Option IBinder :=
  match env.defaultServiceManager with
  | some sm => sm.checkService "statscompanion"
  | none => none

/-! ## Reading a trace -/

/-- The calls made between the state `w` and a later state `w2`. -/
def since (w w2 : World) : List Event := w2.trace.drop w.trace.length

/-- The log lines, which are diagnostics and no action of the service. -/
def Event.isLog : Event → Bool
  | .ALOGD _ _ => true
  | .ALOGW _ _ => true
  | _ => false

/-- The calls of `UpdateConfig` in a trace: receiver, slot and message. -/
def updateConfigCalls (t : List Event) : List (StatsLogProcessor × Int × StatsdConfig) :=
  t.filterMap fun
    | .UpdateConfig p slot config => some (p, slot, config)
    | _ => none

/-- The calls of the log reader in a trace: stream, tag and threshold. -/
def logReaderCalls (t : List Event) : List (FILE × String × Int) :=
  t.filterMap fun
    | .readStatsLogs out tag msec => some (out, tag, msec)
    | _ => none

/-- The completion codes sent in a trace, each with the result receiver it was sent through. -/
def sends (t : List Event) : List (IBinder × status_t) :=
  t.filterMap fun
    | .send receiver code => some (receiver, code)
    | _ => none

/-- The binders on which a trace registers a death recipient. -/
def deathLinks (t : List Event) : List IBinder :=
  t.filterMap fun
    | .linkToDeath b => some b
    | _ => none

/-- The text written to the stream `f` in a trace, in order. -/
def written (f : FILE) (t : List Event) : String :=
  String.join (t.filterMap fun
    | .fprintf g text => if g = f then some text else none
    | _ => none)

/-- What is left of a text after one optional sign. -/
def dropSign : List Char → List Char
  | '-' :: cs => cs
  | '+' :: cs => cs
  | cs => cs

/-- What is left of `s` after white space and one optional sign. -/
def afterSign (s : String) : List Char :=
  dropSign (s.toList.dropWhile isspace)

/-- Whether `s` has a decimal digit right after its white space and optional sign. -/
def startsNumber (s : String) : Bool :=
  match afterSign s with
  | c :: _ => isdigit c
  | [] => false

/-- Whether `s` is a well-formed decimal integer: an optional sign, then one digit or more, and
nothing else. -/
def isDecimalInteger (s : String) : Bool :=
  match s.toList with
  | '-' :: cs => !cs.isEmpty && cs.all isdigit
  | '+' :: cs => !cs.isEmpty && cs.all isdigit
  | cs => !cs.isEmpty && cs.all isdigit

/-- The argument vector that `onTransact` decodes from the parcel of a shell command. -/
def shellArgs (data : Parcel) : List String :=
  let (_, data) := data.readFileDescriptor
  let (_, data) := data.readFileDescriptor
  let (_, data) := data.readFileDescriptor
  let (argc, data) := data.readInt32
  (readArgs argc 0 data []).1

/-- The result receiver that `onTransact` decodes from the parcel of a shell command. -/
def shellReceiver (data : Parcel) : Option IBinder :=
  let (_, data) := data.readFileDescriptor
  let (_, data) := data.readFileDescriptor
  let (_, data) := data.readFileDescriptor
  let (argc, data) := data.readInt32
  let (_, data) := readArgs argc 0 data []
  let (_, data) := data.readStrongBinder
  data.readStrongBinder.1

/-- The parcel after `n` calls of `readString16`. -/
def Parcel.skipStrings (p : Parcel) : Nat → Parcel
  | 0 => p
  | n + 1 => Parcel.skipStrings p.readString16.2 n

/-- The texts that `n` calls of `readString16` in a row return. -/
def Parcel.strings (p : Parcel) : Nat → List String
  | 0 => []
  | n + 1 => p.readString16.1 :: Parcel.strings p.readString16.2 n

/-- The argument count that `onTransact` reads from the parcel of a shell command. -/
def shellArgc (data : Parcel) : Int :=
  data.readFileDescriptor.2.readFileDescriptor.2.readFileDescriptor.2.readInt32.1

/-- The parcel of a shell command once the three descriptors and the argument count are read:
it stands on the first argument. -/
def shellPayload (data : Parcel) : Parcel :=
  data.readFileDescriptor.2.readFileDescriptor.2.readFileDescriptor.2.readInt32.2

/-- The three streams that `onTransact` opens for a shell command, input, output and error in
this order (`none` where `fdopen` failed), and the state after the three `fdopen` calls. -/
def shellStreams (env : Env) (data : Parcel) (w : World) :
    Option FILE × Option FILE × Option FILE × World :=
  let (fdIn, data) := data.readFileDescriptor
  let (fdOut, data) := data.readFileDescriptor
  let (fdErr, _) := data.readFileDescriptor
  let (fin, w) := fdopen env fdIn "r" w
  let (fout, w) := fdopen env fdOut "w" w
  let (ferr, w) := fdopen env fdErr "w" w
  (fin, fout, ferr, w)

/-- The calls that the command shell makes: writes, the log reader, reading the input, the
processor, and log lines. -/
def Event.isCommandCall : Event → Bool
  | .fprintf _ _ => true
  | .readStatsLogs _ _ _ => true
  | .ReadFdToString _ => true
  | .UpdateConfig _ _ _ => true
  | .ALOGD _ _ => true
  | _ => false

/-- How often the stream `f` is flushed in a trace. -/
def flushCount (f : Option FILE) (t : List Event) : Nat := t.count (.fflush f)

/-- How often the stream `f` is closed in a trace. -/
def closeCount (f : Option FILE) (t : List Event) : Nat := t.count (.fclose f)

/-- Whether an operation is a statsCompanionReady that gets through: the caller is AID_SYSTEM
and the lookup yields a binder. -/
def Op.isSuccessfulReady : Op → Bool
  | .statsCompanionReady env => decide (env.callingUid = AID_SYSTEM) && (lookup env).isSome
  | _ => false

/-- Whether an operation is the death callback. -/
def Op.isDeath : Op → Bool
  | .binderDied _ => true
  | _ => false

/-- The binders whose death the callbacks in a sequence of operations report. -/
def observedDead (ops : List Op) : List IBinder :=
  ops.filterMap fun
    | .binderDied who => some who
    | _ => none

/-- Whether every statsCompanionReady by AID_SYSTEM in a sequence of operations looks up a
binder whose death has not been reported before it, neither in `dead` nor by an earlier
callback of the sequence. -/
def lookupsLive (dead : List IBinder) : List Op → Bool
  | [] => true
  | .binderDied who :: ops => lookupsLive (who :: dead) ops
  | .statsCompanionReady env :: ops =>
    (if env.callingUid = AID_SYSTEM then
      match lookup env with
      | some h => decide (h ∉ dead)
      | none => true
    else true) && lookupsLive dead ops
  | _ :: ops => lookupsLive dead ops

/-! ## Sample platforms -/

/-- A service manager in which "statscompanion" is registered as `b`, or not at all. -/
def sampleServiceManager (b : Option IBinder) : IServiceManager :=
  ⟨fun name => if name = "statscompanion" then b else none⟩

/-- A 64-bit platform: the caller has uid `uid`, the service manager is `sm`, the descriptors
that open are the non-negative ones, every descriptor reads as `content`, the contents that parse
are those starting with a line feed, and the log reader answers `code`. -/
def sampleEnv (uid : Nat) (sm : Option IServiceManager) (content : String) (code : status_t) :
    Env where
  callingUid := uid
  defaultServiceManager := sm
  LONG_BIT := 64
  fdopenOk := fun _ fd _ => decide (0 ≤ fd)
  ReadFdToString := fun _ => some content
  ParseFromString := fun s => if s.front = '\n' then some ⟨s⟩ else none
  readStatsLogs := fun _ _ _ => code
  pull := fun _ => "wakelocks"
  BnStatsManager_onTransact := fun _ _ w => .returned NO_ERROR w

/-- The stream opened on descriptor 0 by the first `fdopen` call. -/
def stdinStream : FILE := ⟨0, 0⟩

/-- The stream opened on descriptor 1 by the second `fdopen` call. -/
def stdoutStream : FILE := ⟨1, 1⟩

/-- The stream opened on descriptor 2 by the third `fdopen` call. -/
def stderrStream : FILE := ⟨2, 2⟩

/-- A shell-command parcel, one item per position: the three descriptors, the argument count,
the arguments, a null shell callback and the result receiver `rr`. -/
def shellParcel (fdIn fdOut fdErr : Int) (args : List String) (rr : Option IBinder) : Parcel where
  mDataPos := 0
  fileDescriptorAt := fun pos => ([fdIn, fdOut, fdErr].getD pos (-1), pos + 1)
  int32At := fun pos => (args.length, pos + 1)
  string16At := fun pos => (args.getD (pos - 4) "", pos + 1)
  strongBinderAt := fun pos => (if pos = args.length + 5 then rr else none, pos + 1)
  dataAvailAt := fun pos => args.length + 6 - pos

/-- The state of a service that was given its processor, as the daemon does at start-up. -/
def startedWorld : World := (setProcessor (some ⟨1⟩) World.initial).2

/-- The system server calling while the companion is registered as binder 7. -/
def systemEnv : Env := sampleEnv AID_SYSTEM (some (sampleServiceManager (some ⟨7⟩))) "" 0

/-- The system server calling while no companion is registered. -/
def systemEnvNoPeer : Env := sampleEnv AID_SYSTEM (some (sampleServiceManager none)) "" 0

/-- The shell (uid 2000) calling. -/
def shellEnv : Env := sampleEnv 2000 (some (sampleServiceManager (some ⟨7⟩))) "" 0

/-! ## The guard on the caller -/

theorem getStatsCompanionService_fst (env : Env) (w : World) :
    (getStatsCompanionService env w).1 = lookup env := by
  unfold getStatsCompanionService lookup
  cases env.defaultServiceManager with
  | none => rfl
  | some sm => cases h : sm.checkService "statscompanion" <;> simp [h]

/-- C1: with a caller other than AID_SYSTEM, each of informAnomalyAlarmFired,
informPollAlarmFired, systemRunning and statsCompanionReady answers EX_SECURITY, and the state
afterwards is the state before with at most log lines added to the trace: no pull, no lookup, no
ready signal, no death link, and the companion reference, the processor and the streams as
before. -/
theorem privileged_call_denied (env : Env) (w : World) (h : env.callingUid ≠ AID_SYSTEM) :
    ∀ op ∈ [informAnomalyAlarmFired, informPollAlarmFired, systemRunning, statsCompanionReady],
      (op env w).1.exceptionCode = Status.EX_SECURITY ∧
      (op env w).2.mStatsCompanionService = w.mStatsCompanionService ∧
      ∃ logs : List Event, (∀ e ∈ logs, e.isLog = true) ∧
        (op env w).2 = { w with trace := w.trace ++ logs } := by
  intro op hop
  simp only [List.mem_cons, List.mem_singleton, List.not_mem_nil, or_false] at hop
  rcases hop with rfl | rfl | rfl | rfl
  · refine ⟨?_, ?_, [.ALOGD "StatsService::informAnomalyAlarmFired was called" []], ?_, ?_⟩ <;>
      simp [informAnomalyAlarmFired, h, emit, Status.fromExceptionCode, Event.isLog]
  · refine ⟨?_, ?_, [.ALOGD "StatsService::informPollAlarmFired was called" []], ?_, ?_⟩ <;>
      simp [informPollAlarmFired, h, emit, Status.fromExceptionCode, Event.isLog]
  · refine ⟨?_, ?_, [], ?_, ?_⟩ <;>
      simp [systemRunning, h, Status.fromExceptionCode]
  · refine ⟨?_, ?_, [.ALOGD "StatsService::statsCompanionReady was called" []], ?_, ?_⟩ <;>
      simp [statsCompanionReady, h, emit, Status.fromExceptionCode, Event.isLog]

theorem privileged_call_denied_witness :
    shellEnv.callingUid ≠ AID_SYSTEM ∧
      (statsCompanionReady shellEnv World.initial).1.exceptionCode = Status.EX_SECURITY :=
  ⟨by decide,
    (privileged_call_denied shellEnv World.initial (by decide) statsCompanionReady
      (by simp)).1⟩

/-! ## The companion reference -/

/-- C8: called by AID_SYSTEM while the lookup yields the binder `h`, statsCompanionReady answers
ok, makes exactly one linkToDeath call, on `h`, and leaves `h` as the companion reference,
whatever the reference was before. -/
theorem statsCompanionReady_present (env : Env) (w : World) (h : IBinder)
    (huid : env.callingUid = AID_SYSTEM) (hl : (getStatsCompanionService env w).1 = some h) :
    (statsCompanionReady env w).1 = Status.ok ∧
    (statsCompanionReady env w).2.mStatsCompanionService = some h ∧
    deathLinks (since w (statsCompanionReady env w).2) = [h] := by
  rw [getStatsCompanionService_fst] at hl
  unfold lookup at hl
  cases hsm : env.defaultServiceManager with
  | none => simp [hsm] at hl
  | some sm =>
    simp only [hsm] at hl
    simp [statsCompanionReady, getStatsCompanionService, huid, hsm, hl, emit, since,
      AnomalyMonitor.setStatsCompanionService, deathLinks]

theorem statsCompanionReady_present_witness :
    systemEnv.callingUid = AID_SYSTEM ∧
    (getStatsCompanionService systemEnv World.initial).1 = some ⟨7⟩ ∧
    (statsCompanionReady systemEnv World.initial).2.mStatsCompanionService = some ⟨7⟩ :=
  ⟨by decide, by decide,
    (statsCompanionReady_present systemEnv World.initial ⟨7⟩ (by decide) (by decide)).2.1⟩

/-- C9, as stated, fails: after a first statsCompanionReady stored binder 7, a second one by
AID_SYSTEM whose lookup yields nothing answers EX_NULL_POINTER and leaves binder 7 as the
companion reference. -/
theorem statsCompanionReady_absent_keeps_reference :
    systemEnvNoPeer.callingUid = AID_SYSTEM ∧
    (getStatsCompanionService systemEnvNoPeer
      (run World.initial [.statsCompanionReady systemEnv])).1 = none ∧
    (statsCompanionReady systemEnvNoPeer
      (run World.initial [.statsCompanionReady systemEnv])).1.exceptionCode =
        Status.EX_NULL_POINTER ∧
    (statsCompanionReady systemEnvNoPeer
      (run World.initial [.statsCompanionReady systemEnv])).2.mStatsCompanionService =
        some ⟨7⟩ := by
  decide

/-- C9, amended: called by AID_SYSTEM while the lookup yields nothing, statsCompanionReady
answers EX_NULL_POINTER, makes no linkToDeath call, and leaves the companion reference as it
was; in particular an absent reference stays absent. -/
theorem statsCompanionReady_absent (env : Env) (w : World)
    (huid : env.callingUid = AID_SYSTEM) (hl : (getStatsCompanionService env w).1 = none) :
    (statsCompanionReady env w).1.exceptionCode = Status.EX_NULL_POINTER ∧
    deathLinks (since w (statsCompanionReady env w).2) = [] ∧
    (statsCompanionReady env w).2.mStatsCompanionService = w.mStatsCompanionService ∧
    (w.mStatsCompanionService = none →
      (statsCompanionReady env w).2.mStatsCompanionService = none) := by
  rw [getStatsCompanionService_fst] at hl
  unfold lookup at hl
  cases hsm : env.defaultServiceManager with
  | none =>
    simp [statsCompanionReady, getStatsCompanionService, huid, hsm, emit, since,
      Status.fromExceptionCode, deathLinks]
  | some sm =>
    simp only [hsm] at hl
    simp [statsCompanionReady, getStatsCompanionService, huid, hsm, hl, emit, since,
      Status.fromExceptionCode, deathLinks]

theorem statsCompanionReady_absent_witness :
    systemEnvNoPeer.callingUid = AID_SYSTEM ∧
    (getStatsCompanionService systemEnvNoPeer World.initial).1 = none ∧
    (statsCompanionReady systemEnvNoPeer World.initial).2.mStatsCompanionService = none :=
  ⟨by decide, by decide,
    (statsCompanionReady_absent systemEnvNoPeer World.initial (by decide) (by decide)).2.2.2
      (by decide)⟩

/-! ## The numeric argument -/

theorem LONG_MAX_nonneg (env : Env) : 0 ≤ LONG_MAX env := by
  have : (1 : Int) ≤ 2 ^ (env.LONG_BIT - 1) := one_le_pow₀ (by norm_num)
  unfold LONG_MAX
  omega

theorem LONG_MIN_nonpos (env : Env) : LONG_MIN env ≤ 0 := by
  have : (1 : Int) ≤ 2 ^ (env.LONG_BIT - 1) := one_le_pow₀ (by norm_num)
  unfold LONG_MIN
  omega

theorem isdigit_digitChar (x : Nat) (h : x < 10) : isdigit (Nat.digitChar x) = true := by
  interval_cases x <;> decide

theorem digitChar_value (x : Nat) (h : x < 10) : (Nat.digitChar x).toNat - 48 = x := by
  interval_cases x <;> decide

theorem strtolDigits_digitChar (acc x : Nat) (h : x < 10) (cs : List Char) :
    strtolDigits acc (Nat.digitChar x :: cs) = strtolDigits (acc * 10 + x) cs := by
  simp [strtolDigits, isdigit_digitChar x h, digitChar_value x h]

/-- Reading back what `Nat.toDigitsCore` printed in front of `ds`. -/
theorem strtolDigits_toDigitsCore (fuel : Nat) :
    ∀ (n : Nat) (ds : List Char), n < fuel →
      ∃ k : Nat, ∀ acc : Nat,
        strtolDigits acc (Nat.toDigitsCore 10 fuel n ds) = strtolDigits (acc * 10 ^ k + n) ds := by
  induction fuel with
  | zero => intro n ds h; omega
  | succ fuel ih =>
    intro n ds h
    have hmod : n % 10 < 10 := Nat.mod_lt _ (by norm_num)
    by_cases h0 : n / 10 = 0
    · refine ⟨1, fun acc => ?_⟩
      have hn : n % 10 = n := Nat.mod_eq_of_lt (by omega)
      simp only [Nat.toDigitsCore, h0, if_true]
      rw [strtolDigits_digitChar _ _ hmod, hn]
      simp
    · obtain ⟨k, hk⟩ := ih (n / 10) (Nat.digitChar (n % 10) :: ds) (by omega)
      refine ⟨k + 1, fun acc => ?_⟩
      simp only [Nat.toDigitsCore, h0, if_false]
      rw [hk acc, strtolDigits_digitChar _ _ hmod]
      congr 1
      have := Nat.div_add_mod n 10
      rw [pow_succ]
      nlinarith [Nat.div_add_mod n 10]

/-- What `Nat.toDigitsCore` prints starts with a digit. -/
theorem toDigitsCore_head (fuel : Nat) :
    ∀ (n : Nat) (ds : List Char), n < fuel →
      ∃ c cs, Nat.toDigitsCore 10 fuel n ds = c :: cs ∧ isdigit c = true := by
  induction fuel with
  | zero => intro n ds h; omega
  | succ fuel ih =>
    intro n ds h
    by_cases h0 : n / 10 = 0
    · exact ⟨Nat.digitChar (n % 10), ds, by simp [Nat.toDigitsCore, h0],
        isdigit_digitChar _ (Nat.mod_lt _ (by norm_num))⟩
    · obtain ⟨c, cs, hc, hd⟩ := ih (n / 10) (Nat.digitChar (n % 10) :: ds) (by omega)
      exact ⟨c, cs, by simp [Nat.toDigitsCore, h0, hc], hd⟩

theorem strtolDigits_toDigits (m : Nat) : strtolDigits 0 (Nat.toDigits 10 m) = m := by
  obtain ⟨k, hk⟩ := strtolDigits_toDigitsCore (m + 1) m [] (by omega)
  simpa [Nat.toDigits, strtolDigits] using hk 0

theorem isdigit_not_space (c : Char) (h : isdigit c = true) :
    isspace c = false ∧ c ≠ '-' ∧ c ≠ '+' := by
  simp only [isdigit, Bool.and_eq_true, decide_eq_true_eq] at h
  have h1 : ('0' : Char).val.toNat ≤ c.val.toNat := h.1
  have h2 : c.val.toNat ≤ ('9' : Char).val.toNat := h.2
  have e0 : ('0' : Char).val.toNat = 48 := by decide
  have e9 : ('9' : Char).val.toNat = 57 := by decide
  rw [e0] at h1
  rw [e9] at h2
  have hne : ∀ d : Char, d.val.toNat < 48 → c ≠ d := by
    intro d hd hcd
    subst hcd
    omega
  refine ⟨?_, hne '-' (by decide), hne '+' (by decide)⟩
  simp only [isspace, Bool.or_eq_false_iff, decide_eq_false_iff_not]
  exact ⟨⟨⟨⟨⟨hne ' ' (by decide), hne '\t' (by decide)⟩, hne '\n' (by decide)⟩,
    hne '\x0b' (by decide)⟩, hne '\x0c' (by decide)⟩, hne '\r' (by decide)⟩

theorem dropWhile_isspace_takeWhile (l : List Char) :
    (l.takeWhile (fun c => c ≠ '\x00')).dropWhile isspace =
      (l.dropWhile isspace).takeWhile (fun c => c ≠ '\x00') := by
  induction l with
  | nil => rfl
  | cons c l ih =>
    by_cases hsp : isspace c = true
    · have hc : c ≠ '\x00' := by
        intro h0
        rw [h0] at hsp
        exact absurd hsp (by decide)
      simpa [List.takeWhile, List.dropWhile, hsp, hc] using ih
    · by_cases hc : c = '\x00'
      · simp [List.takeWhile, List.dropWhile, hsp, hc]
      · simp [List.takeWhile, List.dropWhile, hsp, hc]

theorem strtolDigits_takeWhile (l : List Char) :
    ∀ acc, strtolDigits acc (l.takeWhile (fun c => c ≠ '\x00')) = strtolDigits acc l := by
  induction l with
  | nil => intro acc; rfl
  | cons c l ih =>
    intro acc
    by_cases hc : c = '\x00'
    · subst hc
      simp [List.takeWhile, strtolDigits, isdigit]
    · by_cases hd : isdigit c = true
      · simpa [List.takeWhile, strtolDigits, hc, hd] using ih _
      · simp [List.takeWhile, strtolDigits, hc, hd]

/-- The function `strtol` sees a text only up to its first NUL, and stops reading there
anyway. -/
theorem strtol_string (env : Env) (s : String) : strtol env (String8.string s) = strtol env s := by
  unfold strtol
  show (match (s.toList.takeWhile (fun c => c ≠ '\x00')).dropWhile isspace with
    | '-' :: cs => max (LONG_MIN env) (-(strtolDigits 0 cs : Int))
    | '+' :: cs => min (LONG_MAX env) (strtolDigits 0 cs : Int)
    | cs => min (LONG_MAX env) (strtolDigits 0 cs : Int)) = _
  rw [dropWhile_isspace_takeWhile]
  generalize s.toList.dropWhile isspace = l
  cases l with
  | nil => rfl
  | cons c cs =>
    by_cases hc : c = '\x00'
    · subst hc
      simp [List.takeWhile, strtolDigits, isdigit]
    · have htw : List.takeWhile (fun c => c ≠ '\x00') (c :: cs) =
          c :: List.takeWhile (fun c => c ≠ '\x00') cs := by
        simp [List.takeWhile, hc]
      rw [htw]
      by_cases hm : c = '-'
      · subst hm
        show max (LONG_MIN env)
            (-(strtolDigits 0 (List.takeWhile (fun c => c ≠ '\x00') cs) : Int)) =
          max (LONG_MIN env) (-(strtolDigits 0 cs : Int))
        rw [strtolDigits_takeWhile]
      · by_cases hp : c = '+'
        · subst hp
          show min (LONG_MAX env)
              (strtolDigits 0 (List.takeWhile (fun c => c ≠ '\x00') cs) : Int) =
            min (LONG_MAX env) (strtolDigits 0 cs : Int)
          rw [strtolDigits_takeWhile]
        · have h1 : ∀ (x : List Char), (match c :: x with
              | '-' :: cs => max (LONG_MIN env) (-(strtolDigits 0 cs : Int))
              | '+' :: cs => min (LONG_MAX env) (strtolDigits 0 cs : Int)
              | cs => min (LONG_MAX env) (strtolDigits 0 cs : Int)) =
              min (LONG_MAX env) (strtolDigits 0 (c :: x) : Int) := by
            intro x
            split
            · rename_i heq; simp at heq; exact absurd heq.1 hm
            · rename_i heq; simp at heq; exact absurd heq.1 hp
            · rfl
          rw [h1, h1, ← htw, strtolDigits_takeWhile]

/-- The function `strtol` reads back the decimal text of every integer in the range of `long`. -/
theorem strtol_toString (env : Env) (n : Int) (hlo : LONG_MIN env ≤ n) (hhi : n ≤ LONG_MAX env) :
    strtol env (toString n) = n := by
  cases n with
  | ofNat m =>
    have hl : (toString (Int.ofNat m)).toList = Nat.toDigits 10 m := rfl
    obtain ⟨c, cs, hc, hd⟩ := toDigitsCore_head (m + 1) m [] (by omega)
    have hv := strtolDigits_toDigits m
    obtain ⟨hs, hm, hp⟩ := isdigit_not_space c hd
    unfold Nat.toDigits at hl hv
    rw [hc] at hl hv
    unfold strtol
    rw [hl]
    simp only [List.dropWhile, hs]
    split
    · rename_i heq; simp at heq; exact absurd heq.1 hm
    · rename_i heq; simp at heq; exact absurd heq.1 hp
    · rw [hv]
      exact min_eq_right hhi
  | negSucc m =>
    have hl : (toString (Int.negSucc m)).toList = '-' :: Nat.toDigits 10 (m + 1) := by
      show ("-" ++ Nat.repr (m + 1)).toList = _
      simp [Nat.repr]
      rfl
    unfold strtol
    rw [hl]
    have hsp : isspace '-' = false := by decide
    simp only [List.dropWhile, hsp, strtolDigits_toDigits]
    rw [max_eq_right]
    · rw [Int.negSucc_eq]; push_cast; ring
    · rw [Int.negSucc_eq] at hlo; push_cast at hlo ⊢; linarith

/-- The function `strtol` gives 0 for a text without a digit after its white space and sign. -/
theorem strtol_no_digits (env : Env) (s : String) (h : startsNumber s = false) :
    strtol env s = 0 := by
  have hmax := LONG_MAX_nonneg env
  have hmin := LONG_MIN_nonpos env
  have key : ∀ cs : List Char, (match cs with | c :: _ => isdigit c | [] => false) = false →
      strtolDigits 0 cs = 0 := by
    intro cs hcs
    cases cs with
    | nil => rfl
    | cons c cs => simp only at hcs; simp [strtolDigits, hcs]
  unfold startsNumber afterSign at h
  unfold strtol
  simp only [String.toList] at h ⊢
  generalize List.dropWhile isspace s.data = l at h ⊢
  split
  · simp only [dropSign] at h
    simp [key _ h, hmin]
  · simp only [dropSign] at h
    simp [key _ h, hmax]
  · rename_i h1 h2
    have hl : dropSign l = l := by
      unfold dropSign
      split
      · exact absurd rfl (h1 _)
      · exact absurd rfl (h2 _)
      · rfl
    rw [hl] at h
    simp [key _ h, hmax]

/-! ## The command shell -/

theorem since_self_append (w : World) (evs : List Event) (w2 : World)
    (h : w2.trace = w.trace ++ evs) : since w w2 = evs := by
  simp [since, h]

theorem strcmp_eq_zero : ∀ a b : List Char, strcmp a b = 0 ↔ a = b
  | [], [] => by simp [strcmp]
  | [], _ :: _ => by simp [strcmp]
  | _ :: _, [] => by simp [strcmp]
  | a :: as, b :: bs => by
    by_cases h : a = b
    · simp [strcmp, h, strcmp_eq_zero as bs]
    · simp only [strcmp, h, if_false, List.cons.injEq, false_and, iff_false]
      split <;> decide

theorem String8.compare_eq_zero (a b : String) :
    String8.compare a b = 0 ↔ String8.string a = String8.string b := by
  simp only [String8.compare, String8.string, strcmp_eq_zero]
  constructor
  · intro h; rw [h]
  · intro h; exact congrArg String.data h

theorem String8.string_print_stats_log :
    String8.string "print-stats-log" = "print-stats-log" := by decide

theorem String8.string_config : String8.string "config" = "config" := by decide

theorem written_printCmdHelp (out : FILE) (w : World) :
    written out (since w (printCmdHelp out w)) =
      "Usage:\n" ++ ("\t print-stats-log [tag_required] [timestamp_nsec_optional]\n" ++
        ("\t config\t Loads a new config from command-line " ++
          "(must be proto in wire-encoded format).\n")) := by
  have hs : (printCmdHelp out w).trace = w.trace ++
      [.fprintf out "Usage:\n",
       .fprintf out "\t print-stats-log [tag_required] [timestamp_nsec_optional]\n",
       .fprintf out ("\t config\t Loads a new config from command-line (must be proto in " ++
          "wire-encoded format).\n")] := by
    simp [printCmdHelp, emit]
  rw [since_self_append w _ _ hs]
  simp only [written, List.filterMap_cons, List.filterMap_nil, if_true, String.join,
    List.foldl_cons, List.foldl_nil]
  decide

set_option maxRecDepth 20000 in
theorem usage_names_subcommands :
    "print-stats-log".toList <:+:
      ("Usage:\n" ++ ("\t print-stats-log [tag_required] [timestamp_nsec_optional]\n" ++
        ("\t config\t Loads a new config from command-line " ++
          "(must be proto in wire-encoded format).\n"))).toList ∧
    "config".toList <:+:
      ("Usage:\n" ++ ("\t print-stats-log [tag_required] [timestamp_nsec_optional]\n" ++
        ("\t config\t Loads a new config from command-line " ++
          "(must be proto in wire-encoded format).\n"))).toList :=
  ⟨⟨"Usage:\n\t ".toList, (" [tag_required] [timestamp_nsec_optional]\n" ++
      ("\t config\t Loads a new config from command-line " ++
          "(must be proto in wire-encoded format).\n")).toList, by decide⟩,
    ⟨("Usage:\n" ++ ("\t print-stats-log [tag_required] [timestamp_nsec_optional]\n" ++
      "\t ")).toList, ("\t Loads a new config from command-line " ++
          "(must be proto in wire-encoded format).\n").toList, by decide⟩⟩

/-- C7, as stated, fails: "config" followed by a NUL and "x" is neither "print-stats-log" nor
"config", yet `String8::compare` finds it equal to "config" and the command shell loads the
configuration: UpdateConfig is called and no usage text is written. -/
theorem command_config_up_to_nul :
    "config\x00x" ≠ "print-stats-log" ∧ "config\x00x" ≠ "config" ∧
    updateConfigCalls (since startedWorld
      (command (sampleEnv 2000 none "\nconfig" 0) stdinStream stdoutStream stderrStream
        ["config\x00x"] startedWorld).world) = [(⟨1⟩, 0, ⟨"\nconfig"⟩)] ∧
    written stdoutStream (since startedWorld
      (command (sampleEnv 2000 none "\nconfig" 0) stdinStream stdoutStream stderrStream
        ["config\x00x"] startedWorld).world) = "" := by
  decide

/-- C7, amended: for an empty argument vector, for one whose first element, read as a C string
(up to its first NUL), is neither "print-stats-log" nor "config", and for the vector
["print-stats-log"], the command shell returns NO_ERROR, its calls are exactly the three writes
of the usage text to the output stream, that text names both subcommands, and neither the log
reader nor UpdateConfig is called. -/
theorem command_usage (env : Env) (fin out err : FILE) (args : List String) (w : World)
    (h : args = [] ∨
      (∃ a rest, args = a :: rest ∧ String8.string a ≠ "print-stats-log" ∧
        String8.string a ≠ "config") ∨
      args = ["print-stats-log"]) :
    (command env fin out err args w).value? = some NO_ERROR ∧
    since w (command env fin out err args w).world =
      [.fprintf out "Usage:\n",
       .fprintf out "\t print-stats-log [tag_required] [timestamp_nsec_optional]\n",
       .fprintf out ("\t config\t Loads a new config from command-line " ++
          "(must be proto in wire-encoded format).\n")] ∧
    "print-stats-log".toList <:+:
      (written out (since w (command env fin out err args w).world)).toList ∧
    "config".toList <:+: (written out (since w (command env fin out err args w).world)).toList ∧
    logReaderCalls (since w (command env fin out err args w).world) = [] ∧
    updateConfigCalls (since w (command env fin out err args w).world) = [] := by
  have hcmd : command env fin out err args w = .returned NO_ERROR (printCmdHelp out w) := by
    rcases h with rfl | ⟨a, rest, rfl, h1, h2⟩ | rfl
    · simp [command]
    · simp [command, String8.compare_eq_zero, String8.string_print_stats_log,
        String8.string_config, h1, h2]
    · have hne : String8.string "print-stats-log" ≠ String8.string "config" := by decide
      simp [command, String8.compare_eq_zero, hne]
  have hs : since w (printCmdHelp out w) =
      [.fprintf out "Usage:\n",
       .fprintf out "\t print-stats-log [tag_required] [timestamp_nsec_optional]\n",
       .fprintf out ("\t config\t Loads a new config from command-line " ++
          "(must be proto in wire-encoded format).\n")] := by
    apply since_self_append
    simp [printCmdHelp, emit]
  have hw := written_printCmdHelp out w
  rw [hcmd]
  show some NO_ERROR = some NO_ERROR ∧
    since w (printCmdHelp out w) = _ ∧
    _ <:+: (written out (since w (printCmdHelp out w))).toList ∧
    _ <:+: (written out (since w (printCmdHelp out w))).toList ∧
    logReaderCalls (since w (printCmdHelp out w)) = [] ∧
    updateConfigCalls (since w (printCmdHelp out w)) = []
  refine ⟨rfl, hs, ?_, ?_, ?_, ?_⟩
  · rw [hw]
    exact usage_names_subcommands.1
  · rw [hw]
    exact usage_names_subcommands.2
  · simp only [hs]
    simp [logReaderCalls]
  · simp only [hs]
    simp [updateConfigCalls]

theorem command_usage_witness :
    (command systemEnv stdinStream stdoutStream stderrStream ["help"] World.initial).value? =
      some NO_ERROR :=
  (command_usage systemEnv stdinStream stdoutStream stderrStream ["help"] World.initial
    (Or.inr (Or.inl ⟨"help", [], rfl, by decide, by decide⟩))).1

/-- C4: in a service that has its processor, for the command "config" and every content read
from the input stream, UpdateConfig is called if and only if the content parses as a
configuration message; when it parses, UpdateConfig is called exactly once, on the processor,
with slot 0 and the parsed message, and the command returns NO_ERROR; when it does not parse, the
command returns UNKNOWN_ERROR and UpdateConfig is not called.  When the input cannot be read at
all, the command returns UNKNOWN_ERROR as well and UpdateConfig is not called. -/
theorem config_command (env : Env) (fin out err : FILE) (rest : List String) (w : World)
    (processor : StatsLogProcessor) (hproc : w.m_processor = some processor) :
    (∀ content, env.ReadFdToString fin.fileno = some content →
      (updateConfigCalls (since w (command env fin out err ("config" :: rest) w).world) ≠ [] ↔
        ∃ config, env.ParseFromString content = some config) ∧
      (∀ config, env.ParseFromString content = some config →
        updateConfigCalls (since w (command env fin out err ("config" :: rest) w).world) =
          [(processor, 0, config)] ∧
        (command env fin out err ("config" :: rest) w).value? = some NO_ERROR) ∧
      (env.ParseFromString content = none →
        updateConfigCalls (since w (command env fin out err ("config" :: rest) w).world) = [] ∧
        (command env fin out err ("config" :: rest) w).value? = some UNKNOWN_ERROR)) ∧
    (env.ReadFdToString fin.fileno = none →
      updateConfigCalls (since w (command env fin out err ("config" :: rest) w).world) = [] ∧
      (command env fin out err ("config" :: rest) w).value? = some UNKNOWN_ERROR) := by
  have hne : String8.string "config" ≠ String8.string "print-stats-log" := by decide
  have hcmd : command env fin out err ("config" :: rest) w = doLoadConfig env fin w := by
    simp [command, String8.compare_eq_zero, hne]
  rw [hcmd]
  constructor
  · intro content hread
    cases hp : env.ParseFromString content with
    | none =>
      simp [doLoadConfig, hread, hp, emit, since, updateConfigCalls, Outcome.world,
        Outcome.value?]
    | some config =>
      simp [doLoadConfig, hread, hp, hproc, emit, since, updateConfigCalls, Outcome.world,
        Outcome.value?]
  · intro hread
    simp [doLoadConfig, hread, emit, since, updateConfigCalls, Outcome.world, Outcome.value?]

theorem config_command_witness :
    startedWorld.m_processor = some ⟨1⟩ ∧
    (sampleEnv 2000 none "\nconfig" 0).ReadFdToString stdinStream.fileno = some "\nconfig" ∧
    updateConfigCalls (since startedWorld
      (command (sampleEnv 2000 none "\nconfig" 0) stdinStream stdoutStream stderrStream
        ["config"] startedWorld).world) = [(⟨1⟩, 0, ⟨"\nconfig"⟩)] :=
  ⟨rfl, rfl, (((config_command (sampleEnv 2000 none "\nconfig" 0) stdinStream stdoutStream
    stderrStream [] startedWorld ⟨1⟩ rfl).1 "\nconfig" rfl).2.1 ⟨"\nconfig"⟩ (by decide)).1⟩

theorem command_print_stats_log (env : Env) (fin out err : FILE) (tag : String)
    (rest : List String) (w : World) :
    command env fin out err ("print-stats-log" :: tag :: rest) w =
      .returned (doPrintStatsLog env out ("print-stats-log" :: tag :: rest) w).1
        (doPrintStatsLog env out ("print-stats-log" :: tag :: rest) w).2 := by
  simp [command, String8.compare_eq_zero]

theorem String8.string_of_no_nul (s : String) (h : '\x00' ∉ s.toList) :
    String8.string s = s := by
  have hl : c_str s = s.toList := by
    unfold c_str
    rw [List.takeWhile_eq_self_iff]
    intro c hc
    simp only [ne_eq, decide_eq_true_eq]
    intro hc0
    exact h (hc0 ▸ hc)
  unfold String8.string
  rw [hl]
  rfl

/-- C5, as stated, fails: "12abc" is no well-formed decimal integer, yet with it as third
argument the log reader is called with threshold 12, not 0. -/
theorem print_stats_log_trailing_text :
    isDecimalInteger "12abc" = false ∧
    logReaderCalls (since World.initial
      (command systemEnv stdinStream stdoutStream stderrStream
        ["print-stats-log", "tag", "12abc"] World.initial).world) =
      [(stdoutStream, "tag", 12)] := by
  decide

/-- C5, amended: for an argument vector "print-stats-log", tag, and then either nothing or a
third argument without a decimal digit right after its white space and optional sign, the log
reader is called exactly once, with the output stream, the tag (as the C string it is passed as)
and threshold 0, and the command returns what the log reader returns. -/
theorem print_stats_log_threshold_zero (env : Env) (fin out err : FILE) (tag : String)
    (rest : List String) (w : World)
    (h : rest = [] ∨ ∃ a more, rest = a :: more ∧ startsNumber a = false) :
    logReaderCalls
        (since w (command env fin out err ("print-stats-log" :: tag :: rest) w).world) =
      [(out, String8.string tag, 0)] ∧
    (command env fin out err ("print-stats-log" :: tag :: rest) w).value? =
      some (env.readStatsLogs out (String8.string tag) 0) := by
  rw [command_print_stats_log]
  rcases h with rfl | ⟨a, more, rfl, ha⟩
  · simp [doPrintStatsLog, DropboxReader.readStatsLogs, emit, since, logReaderCalls,
      Outcome.world, Outcome.value?]
  · simp [doPrintStatsLog, DropboxReader.readStatsLogs, emit, since, logReaderCalls,
      strtol_string, strtol_no_digits env a ha, Outcome.world, Outcome.value?]

theorem print_stats_log_threshold_zero_witness :
    logReaderCalls (since World.initial
      (command systemEnv stdinStream stdoutStream stderrStream
        ["print-stats-log", "tag", "notanumber"] World.initial).world) =
      [(stdoutStream, "tag", 0)] :=
  (print_stats_log_threshold_zero systemEnv stdinStream stdoutStream stderrStream "tag"
    ["notanumber"] World.initial (Or.inr ⟨"notanumber", [], rfl, by decide⟩)).1

/-- C6, as stated, fails: the tag is handed to the log reader as a C string, so for the tag "ta"
followed by a NUL and "g" the log reader is called with the tag "ta". -/
theorem print_stats_log_tag_up_to_nul :
    logReaderCalls (since World.initial
      (command (sampleEnv 2000 none "" 42) stdinStream stdoutStream stderrStream
        ["print-stats-log", "ta\x00g", "1500"] World.initial).world) =
      [(stdoutStream, "ta", 1500)] ∧
    "ta" ≠ "ta\x00g" := by
  decide

/-- C6, amended: for the argument vector "print-stats-log", tag, and the decimal text of an
integer `n` in the range of `long`, the command shell calls the log reader exactly once, with the
output stream, the tag as a C string (the tag up to its first NUL, which is the whole tag when it
has none) and threshold `n`, and returns what the log reader returns. -/
theorem print_stats_log_numeric (env : Env) (fin out err : FILE) (tag : String) (n : Int)
    (w : World) (hlo : LONG_MIN env ≤ n) (hhi : n ≤ LONG_MAX env) :
    logReaderCalls
        (since w (command env fin out err ["print-stats-log", tag, toString n] w).world) =
      [(out, String8.string tag, n)] ∧
    (command env fin out err ["print-stats-log", tag, toString n] w).value? =
      some (env.readStatsLogs out (String8.string tag) n) ∧
    ('\x00' ∉ tag.toList → String8.string tag = tag) := by
  rw [command_print_stats_log]
  refine ⟨?_, ?_, String8.string_of_no_nul tag⟩ <;>
    simp [doPrintStatsLog, DropboxReader.readStatsLogs, emit, since, logReaderCalls,
      strtol_string, strtol_toString env n hlo hhi, Outcome.world, Outcome.value?]

theorem print_stats_log_numeric_witness :
    logReaderCalls (since World.initial
      (command (sampleEnv 2000 none "" 42) stdinStream stdoutStream stderrStream
        ["print-stats-log", "myTag", "1500"] World.initial).world) =
      [(stdoutStream, "myTag", 1500)] ∧
    (command (sampleEnv 2000 none "" 42) stdinStream stdoutStream stderrStream
        ["print-stats-log", "myTag", "1500"] World.initial).value? = some 42 :=
  ⟨(print_stats_log_numeric (sampleEnv 2000 none "" 42) stdinStream stdoutStream stderrStream
      "myTag" 1500 World.initial (by decide) (by decide)).1,
    (print_stats_log_numeric (sampleEnv 2000 none "" 42) stdinStream stdoutStream stderrStream
      "myTag" 1500 World.initial (by decide) (by decide)).2.1⟩

/-! ## The shell-command transaction -/

/-- What the argument loop reads: the first `k` texts of the payload, where `k` is the count
left to read unless the data runs out before. -/
theorem readArgs_spec (argc : Int) :
    ∀ (n i : Nat) (p : Parcel) (acc : List String), (argc - i).toNat = n →
      ∃ k : Nat, k ≤ n ∧ readArgs argc i p acc = (acc ++ p.strings k, p.skipStrings k) ∧
        (∀ j < k, (p.skipStrings j).dataAvail > 0) ∧
        (k < n → (p.skipStrings k).dataAvail = 0) := by
  intro n
  induction n with
  | zero =>
    intro i p acc hn
    refine ⟨0, le_refl _, ?_, by simp, by simp⟩
    rw [readArgs]
    have : ¬ ((i : Int) < argc) := by omega
    simp [this, Parcel.strings, Parcel.skipStrings]
  | succ n ih =>
    intro i p acc hn
    have hlt : (i : Int) < argc := by omega
    by_cases hav : p.dataAvail > 0
    · obtain ⟨k, hk, hread, hpos, hend⟩ :=
        ih (i + 1) p.readString16.2 (acc ++ [p.readString16.1]) (by push_cast; omega)
      refine ⟨k + 1, by omega, ?_, ?_, ?_⟩
      · rw [readArgs]
        simp only [hlt, hav, and_self, if_true]
        rw [hread]
        simp [Parcel.strings, Parcel.skipStrings]
      · intro j hj
        cases j with
        | zero => exact hav
        | succ j => exact hpos j (by omega)
      · intro hkn
        exact hend (by omega)
    · refine ⟨0, by omega, ?_, by simp, ?_⟩
      · rw [readArgs]
        simp [hav, Parcel.strings, Parcel.skipStrings]
      · intro _
        simp only [Parcel.skipStrings]
        omega

theorem shellArgs_sample :
    shellArgs (shellParcel 0 1 2 ["print-stats-log", "myTag", "1500"] (some ⟨9⟩)) =
      ["print-stats-log", "myTag", "1500"] := by
  simp [shellArgs, shellParcel, Parcel.readFileDescriptor, Parcel.readInt32, readArgs,
    Parcel.dataAvail, Parcel.readString16]

theorem shellReceiver_sample :
    shellReceiver (shellParcel 0 1 2 ["print-stats-log", "myTag", "1500"] (some ⟨9⟩)) =
      some ⟨9⟩ := by
  simp [shellReceiver, shellParcel, Parcel.readFileDescriptor, Parcel.readInt32, readArgs,
    Parcel.dataAvail, Parcel.readString16, Parcel.readStrongBinder]

theorem shellArgs_empty (fdIn fdOut fdErr : Int) (rr : Option IBinder) :
    shellArgs (shellParcel fdIn fdOut fdErr [] rr) = [] := by
  simp [shellArgs, shellParcel, Parcel.readFileDescriptor, Parcel.readInt32, readArgs]

theorem shellReceiver_empty (fdIn fdOut fdErr : Int) (rr : Option IBinder) :
    shellReceiver (shellParcel fdIn fdOut fdErr [] rr) = rr := by
  simp [shellReceiver, shellParcel, Parcel.readFileDescriptor, Parcel.readInt32, readArgs,
    Parcel.readStrongBinder]

theorem onTransact_shell (env : Env) (data : Parcel) (w : World) :
    ∀ (fin fout ferr : Option FILE) (w3 : World),
      shellStreams env data w = (fin, fout, ferr, w3) →
      onTransact env SHELL_COMMAND_TRANSACTION data w =
        Outcome.bind
          (match fin, fout, ferr with
            | some fi, some fo, some fe =>
              Outcome.bind (command env fi fo fe (shellArgs data) w3) fun err w =>
                IResultReceiver.send (shellReceiver data) err w
            | _, _, _ => IResultReceiver.send (shellReceiver data) NO_MEMORY w3)
          fun _ w =>
        Outcome.bind (flushClose fin fin w) fun _ w =>
        Outcome.bind (flushClose fout fout w) fun _ w =>
        Outcome.bind (flushClose fout ferr w) fun _ w =>
        .returned NO_ERROR w := by
  intro fin fout ferr w3 hs
  have h1 : (shellStreams env data w).1 = fin := by rw [hs]
  have h2 : (shellStreams env data w).2.1 = fout := by rw [hs]
  have h3 : (shellStreams env data w).2.2.1 = ferr := by rw [hs]
  have h4 : (shellStreams env data w).2.2.2 = w3 := by rw [hs]
  clear hs
  subst h1 h2 h3 h4
  unfold onTransact
  rw [if_pos rfl]
  rfl

theorem shellStreams_world (env : Env) (data : Parcel) (w : World) :
    (shellStreams env data w).2.2.2 = { w with opens := w.opens + 3 } := by
  simp only [shellStreams, fdopen]
  split_ifs <;> rfl

/-- What the three release blocks do after the completion code is sent, in a state `w`: the
process dies in `fclose(NULL)` exactly when the output stream opened and the error stream did
not; the calls made are the same either way. -/
theorem release_blocks (fin fout ferr : Option FILE) (w : World) :
    (Outcome.bind (flushClose fin fin w) fun _ w =>
      Outcome.bind (flushClose fout fout w) fun _ w =>
      Outcome.bind (flushClose fout ferr w) fun _ w =>
      Outcome.returned NO_ERROR w) =
      if fout ≠ none ∧ ferr = none then
        .died { w with trace := w.trace ++
          ((if fin ≠ none then [.fflush fin, .fclose fin] else []) ++
            [.fflush fout, .fclose fout, .fflush none, .fclose none]) }
      else
        .returned NO_ERROR { w with trace := w.trace ++
          ((if fin ≠ none then [.fflush fin, .fclose fin] else []) ++
          ((if fout ≠ none then [.fflush fout, .fclose fout] else []) ++
            (if fout ≠ none then [.fflush ferr, .fclose ferr] else []))) } := by
  rcases fin with _ | fi <;> rcases fout with _ | fo <;> rcases ferr with _ | fe <;>
    simp [flushClose, fclose, fflush, emit, Outcome.bind]

/-- What the command shell does to the state, whether it returns or the process dies in it: it
adds calls of its own to the trace, at least one, and changes nothing else. -/
theorem command_frame (env : Env) (fi fo fe : FILE) (args : List String) (w : World) :
    ∃ evs : List Event, evs ≠ [] ∧ (∀ e ∈ evs, e.isCommandCall = true) ∧
      (command env fi fo fe args w).world = { w with trace := w.trace ++ evs } := by
  unfold command
  split_ifs
  · exact ⟨[.readStatsLogs fo (String8.string (args.getD 1 ""))
        (if args.length > 2 then strtol env (String8.string (args.getD 2 "")) else 0)],
      by simp, by simp [Event.isCommandCall],
      by simp only [doPrintStatsLog, DropboxReader.readStatsLogs, emit, Outcome.world]⟩
  · unfold doLoadConfig
    cases hr : env.ReadFdToString fi.fileno with
    | none => exact ⟨[.ReadFdToString fi.fileno], by simp, by simp [Event.isCommandCall], rfl⟩
    | some content =>
      cases hp : env.ParseFromString content with
      | none =>
        exact ⟨[.ReadFdToString fi.fileno, .ALOGD "Config failed to be parsed" []], by simp,
          by simp [Event.isCommandCall], by simp [emit, hp, Outcome.world]⟩
      | some config =>
        cases hm : w.m_processor with
        | none =>
          exact ⟨[.ReadFdToString fi.fileno,
            .ALOGD "Config parsed from command line: %s" [String8.string config.serialized]], by simp,
            by simp [Event.isCommandCall], by simp [emit, hp, hm, Outcome.world]⟩
        | some processor =>
          exact ⟨[.ReadFdToString fi.fileno,
            .ALOGD "Config parsed from command line: %s" [String8.string config.serialized],
            .UpdateConfig processor 0 config], by simp, by simp [Event.isCommandCall],
            by simp [emit, hp, hm, Outcome.world]⟩
  · exact ⟨[.fprintf fo "Usage:\n",
       .fprintf fo "\t print-stats-log [tag_required] [timestamp_nsec_optional]\n",
       .fprintf fo ("\t config\t Loads a new config from command-line " ++
          "(must be proto in wire-encoded format).\n")],
      by simp, by simp [Event.isCommandCall], by simp [printCmdHelp, emit, Outcome.world]⟩
  · exact ⟨[.fprintf fo "Usage:\n",
       .fprintf fo "\t print-stats-log [tag_required] [timestamp_nsec_optional]\n",
       .fprintf fo ("\t config\t Loads a new config from command-line " ++
          "(must be proto in wire-encoded format).\n")],
      by simp, by simp [Event.isCommandCall], by simp [printCmdHelp, emit, Outcome.world]⟩

/-- The command shell returns unless it reaches UpdateConfig without a processor. -/
theorem command_returns (env : Env) (fi fo fe : FILE) (args : List String) (w : World)
    (processor : StatsLogProcessor) (hproc : w.m_processor = some processor) :
    ∃ err w4, command env fi fo fe args w = .returned err w4 := by
  unfold command
  split_ifs
  · exact ⟨_, _, rfl⟩
  · unfold doLoadConfig
    cases hr : env.ReadFdToString fi.fileno with
    | none => exact ⟨UNKNOWN_ERROR, _, rfl⟩
    | some content =>
      cases hp : env.ParseFromString content with
      | none =>
        refine ⟨UNKNOWN_ERROR, emit (.ALOGD "Config failed to be parsed" [])
          (emit (.ReadFdToString fi.fileno) w), ?_⟩
        simp only [hp]
      | some config =>
        have hm : (emit (.ALOGD "Config parsed from command line: %s" [String8.string config.serialized])
            (emit (.ReadFdToString fi.fileno) w)).m_processor = some processor := hproc
        refine ⟨NO_ERROR, emit (.UpdateConfig processor 0 config)
          (emit (.ALOGD "Config parsed from command line: %s" [String8.string config.serialized])
            (emit (.ReadFdToString fi.fileno) w)), ?_⟩
        simp only [hp]
        rw [hm]
  · exact ⟨_, _, rfl⟩
  · exact ⟨_, _, rfl⟩

theorem sends_commandCalls (evs : List Event) (h : ∀ e ∈ evs, e.isCommandCall = true) :
    sends evs = [] := by
  induction evs with
  | nil => rfl
  | cons e evs ih =>
    have he := h e (List.mem_cons_self _ _)
    have ih2 := ih (fun x hx => h x (List.mem_cons_of_mem _ hx))
    cases e <;> simp_all [sends, Event.isCommandCall]

theorem sends_append (a b : List Event) : sends (a ++ b) = sends a ++ sends b := by
  simp [sends, List.filterMap_append]

theorem send_step_failed (env : Env) (data : Parcel) :
    ∀ (fin fout ferr : Option FILE) (w3 : World), (fin = none ∨ fout = none ∨ ferr = none) →
      (match fin, fout, ferr with
        | some fi, some fo, some fe =>
          Outcome.bind (command env fi fo fe (shellArgs data) w3) fun err w =>
            IResultReceiver.send (shellReceiver data) err w
        | _, _, _ => IResultReceiver.send (shellReceiver data) NO_MEMORY w3) =
        IResultReceiver.send (shellReceiver data) NO_MEMORY w3 := by
  intro fin fout ferr w3 hnone
  rcases hnone with rfl | rfl | rfl
  · rfl
  · cases fin <;> rfl
  · cases fin <;> cases fout <;> rfl

/-- C3, as stated, fails: on a shell-command parcel without result receiver (all three streams
open, no arguments) nothing is sent and `onTransact` does not return: the process dies in
`resultReceiver->send`. -/
theorem onTransact_null_receiver :
    shellStreams shellEnv (shellParcel 0 1 2 [] none) World.initial =
      (some stdinStream, some stdoutStream, some stderrStream, ⟨[], none, none, 3⟩) ∧
    shellReceiver (shellParcel 0 1 2 [] none) = none ∧
    (onTransact shellEnv SHELL_COMMAND_TRANSACTION (shellParcel 0 1 2 [] none)
      World.initial).value? = none ∧
    sends (since World.initial
      (onTransact shellEnv SHELL_COMMAND_TRANSACTION (shellParcel 0 1 2 [] none)
        World.initial).world) = [] := by
  have hs : shellStreams shellEnv (shellParcel 0 1 2 [] none) World.initial =
      (some stdinStream, some stdoutStream, some stderrStream, ⟨[], none, none, 3⟩) := by
    decide
  refine ⟨hs, shellReceiver_empty 0 1 2 none, ?_, ?_⟩ <;>
    rw [onTransact_shell _ _ _ _ _ _ _ hs, shellReceiver_empty, shellArgs_empty] <;>
    simp [command, printCmdHelp, IResultReceiver.send, Outcome.bind, Outcome.value?,
      Outcome.world, emit, since, World.initial, sends]

/-- C3, amended: take a shell-command transaction whose parcel carries a result receiver `rr`;
let `fin`, `fout`, `ferr` be the outcomes of the three `fdopen` calls and `w3` the state after
them.  When all three opened and `command`, run on these streams and the decoded arguments,
returns `err`, then `err` is sent through `rr`, nothing else is sent, and `onTransact` returns
NO_ERROR.  When one open failed, NO_MEMORY is sent through `rr`, nothing else is sent, the send
is the first call made and only flushes and closes follow, so the command shell is not run; and
`onTransact` returns NO_ERROR, unless the output stream opened and the error stream did not.
The decoded arguments are the first `k` texts of the payload, `k` being the argument count
unless the data runs out before, and the result receiver is the second binder after them. -/
theorem onTransact_sends_one_code (env : Env) (data : Parcel) (w : World)
    (fin fout ferr : Option FILE) (w3 : World) (rr : IBinder)
    (hs : shellStreams env data w = (fin, fout, ferr, w3))
    (hrr : shellReceiver data = some rr) :
    (∀ fi fo fe err w4, fin = some fi → fout = some fo → ferr = some fe →
      command env fi fo fe (shellArgs data) w3 = .returned err w4 →
      (onTransact env SHELL_COMMAND_TRANSACTION data w).value? = some NO_ERROR ∧
      sends (since w (onTransact env SHELL_COMMAND_TRANSACTION data w).world) = [(rr, err)]) ∧
    ((fin = none ∨ fout = none ∨ ferr = none) →
      sends (since w (onTransact env SHELL_COMMAND_TRANSACTION data w).world) =
        [(rr, NO_MEMORY)] ∧
      (∃ rest, since w (onTransact env SHELL_COMMAND_TRANSACTION data w).world =
          .send rr NO_MEMORY :: rest ∧
        ∀ e ∈ rest, (∃ f, e = .fflush f) ∨ (∃ f, e = .fclose f)) ∧
      ((fout = none ∨ ferr ≠ none) →
        (onTransact env SHELL_COMMAND_TRANSACTION data w).value? = some NO_ERROR)) ∧
    (∃ k : Nat, k ≤ (shellArgc data).toNat ∧
      shellArgs data = (shellPayload data).strings k ∧
      shellReceiver data =
        ((shellPayload data).skipStrings k).readStrongBinder.2.readStrongBinder.1 ∧
      (∀ j < k, ((shellPayload data).skipStrings j).dataAvail > 0) ∧
      (k < (shellArgc data).toNat → ((shellPayload data).skipStrings k).dataAvail = 0)) := by
  have hw3 : w3 = { w with opens := w.opens + 3 } := by
    rw [← shellStreams_world env data w, hs]
  have hT := onTransact_shell env data w fin fout ferr w3 hs
  rw [hrr] at hT
  simp only [release_blocks] at hT
  refine ⟨?_, ?_, ?_⟩
  · rintro fi fo fe err w4 rfl rfl rfl hcmd
    obtain ⟨evs, -, hcall, hc⟩ := command_frame env fi fo fe (shellArgs data) w3
    rw [hcmd] at hc
    simp only [Outcome.world] at hc
    have hsent := sends_commandCalls evs hcall
    rw [hT]
    simp only [hcmd, Outcome.bind, IResultReceiver.send, emit]
    simp only [ne_eq, not_true_eq_false, reduceCtorEq, and_false, if_false, not_false_eq_true,
      if_true, Outcome.value?, Outcome.world, true_and]
    rw [since_self_append w (evs ++ [.send rr err, .fflush (some fi), .fclose (some fi),
      .fflush (some fo), .fclose (some fo), .fflush (some fe), .fclose (some fe)]) _
      (by simp [hc, hw3])]
    rw [sends_append, hsent]
    simp [sends]
  · intro hnone
    have hf := send_step_failed env data fin fout ferr w3 hnone
    rw [hrr] at hf
    rw [hf] at hT
    rw [hT]
    subst hw3
    rcases fin with _ | fi <;> rcases fout with _ | fo <;> rcases ferr with _ | fe <;>
      simp [IResultReceiver.send, Outcome.bind, emit, since, sends, Outcome.world,
        Outcome.value?] at hnone ⊢
  · obtain ⟨k, hk, hread, hpos, hend⟩ :=
      readArgs_spec (shellArgc data) (shellArgc data).toNat 0 (shellPayload data) [] (by simp)
    refine ⟨k, hk, ?_, ?_, hpos, hend⟩
    · show (readArgs (shellArgc data) 0 (shellPayload data) []).1 = _
      rw [hread]
      simp
    · show (readArgs (shellArgc data) 0 (shellPayload data)
        []).2.readStrongBinder.2.readStrongBinder.1 = _
      rw [hread]

theorem onTransact_sends_one_code_witness :
    shellStreams (sampleEnv 2000 none "" 42)
        (shellParcel 0 1 2 ["print-stats-log", "myTag", "1500"] (some ⟨9⟩)) World.initial =
      (some stdinStream, some stdoutStream, some stderrStream, ⟨[], none, none, 3⟩) ∧
    shellReceiver (shellParcel 0 1 2 ["print-stats-log", "myTag", "1500"] (some ⟨9⟩)) =
      some ⟨9⟩ ∧
    (onTransact (sampleEnv 2000 none "" 42) SHELL_COMMAND_TRANSACTION
      (shellParcel 0 1 2 ["print-stats-log", "myTag", "1500"] (some ⟨9⟩))
      World.initial).value? = some NO_ERROR ∧
    sends (since World.initial
      (onTransact (sampleEnv 2000 none "" 42) SHELL_COMMAND_TRANSACTION
        (shellParcel 0 1 2 ["print-stats-log", "myTag", "1500"] (some ⟨9⟩))
        World.initial).world) = [(⟨9⟩, 42)] :=
  ⟨by decide, shellReceiver_sample,
    (onTransact_sends_one_code (sampleEnv 2000 none "" 42)
      (shellParcel 0 1 2 ["print-stats-log", "myTag", "1500"] (some ⟨9⟩)) World.initial
      (some stdinStream) (some stdoutStream) (some stderrStream) ⟨[], none, none, 3⟩ ⟨9⟩
      (by decide) shellReceiver_sample).1 stdinStream stdoutStream stderrStream 42
      (command (sampleEnv 2000 none "" 42) stdinStream stdoutStream stderrStream
        ["print-stats-log", "myTag", "1500"] ⟨[], none, none, 3⟩).world rfl rfl rfl
      (by rw [shellArgs_sample]; rfl)⟩

/-- C2 fails on the error stream, whose release is guarded by the output stream.  When the
output descriptor (here -1) does not open and the error descriptor (here 2) does, `onTransact`
returns and the stream opened on the error descriptor was neither flushed nor closed.  When the
output descriptor opens and the error descriptor (here -1) does not, `fflush` and `fclose` are
called on the null stream, and the process dies there. -/
theorem onTransact_error_stream_release :
    (shellStreams shellEnv (shellParcel 0 (-1) 2 [] (some ⟨9⟩)) World.initial =
        (some ⟨0, 0⟩, none, some ⟨2, 2⟩, ⟨[], none, none, 3⟩) ∧
      (onTransact shellEnv SHELL_COMMAND_TRANSACTION (shellParcel 0 (-1) 2 [] (some ⟨9⟩))
          World.initial).value? = some NO_ERROR ∧
      flushCount (some ⟨2, 2⟩) (since World.initial
        (onTransact shellEnv SHELL_COMMAND_TRANSACTION (shellParcel 0 (-1) 2 [] (some ⟨9⟩))
          World.initial).world) = 0 ∧
      closeCount (some ⟨2, 2⟩) (since World.initial
        (onTransact shellEnv SHELL_COMMAND_TRANSACTION (shellParcel 0 (-1) 2 [] (some ⟨9⟩))
          World.initial).world) = 0) ∧
    (shellStreams shellEnv (shellParcel 0 1 (-1) [] (some ⟨9⟩)) World.initial =
        (some ⟨0, 0⟩, some ⟨1, 1⟩, none, ⟨[], none, none, 3⟩) ∧
      (onTransact shellEnv SHELL_COMMAND_TRANSACTION (shellParcel 0 1 (-1) [] (some ⟨9⟩))
          World.initial).value? = none ∧
      flushCount none (since World.initial
        (onTransact shellEnv SHELL_COMMAND_TRANSACTION (shellParcel 0 1 (-1) [] (some ⟨9⟩))
          World.initial).world) = 1 ∧
      closeCount none (since World.initial
        (onTransact shellEnv SHELL_COMMAND_TRANSACTION (shellParcel 0 1 (-1) [] (some ⟨9⟩))
          World.initial).world) = 1) := by
  have h1 : shellStreams shellEnv (shellParcel 0 (-1) 2 [] (some ⟨9⟩)) World.initial =
      (some ⟨0, 0⟩, none, some ⟨2, 2⟩, ⟨[], none, none, 3⟩) := by decide
  have h2 : shellStreams shellEnv (shellParcel 0 1 (-1) [] (some ⟨9⟩)) World.initial =
      (some ⟨0, 0⟩, some ⟨1, 1⟩, none, ⟨[], none, none, 3⟩) := by decide
  rw [onTransact_shell _ _ _ _ _ _ _ h1, onTransact_shell _ _ _ _ _ _ _ h2]
  simp only [shellReceiver_empty, release_blocks]
  refine ⟨⟨h1, ?_, ?_, ?_⟩, h2, ?_, ?_, ?_⟩ <;>
    simp [IResultReceiver.send, Outcome.bind, Outcome.value?, Outcome.world, emit, since,
      World.initial, flushCount, closeCount]

theorem shellStreams_eq (env : Env) (data : Parcel) (w : World) :
    shellStreams env data w =
      ((if env.fdopenOk w.opens data.readFileDescriptor.1 "r" then
          some ⟨data.readFileDescriptor.1, w.opens⟩ else none),
        (if env.fdopenOk (w.opens + 1) data.readFileDescriptor.2.readFileDescriptor.1 "w" then
          some ⟨data.readFileDescriptor.2.readFileDescriptor.1, w.opens + 1⟩ else none),
        (if env.fdopenOk (w.opens + 2)
            data.readFileDescriptor.2.readFileDescriptor.2.readFileDescriptor.1 "w" then
          some ⟨data.readFileDescriptor.2.readFileDescriptor.2.readFileDescriptor.1, w.opens + 2⟩
          else none),
        { w with opens := w.opens + 3 }) := by
  simp only [shellStreams, fdopen]
  split_ifs <;> rfl

theorem count_commandCalls (evs : List Event) (h : ∀ e ∈ evs, e.isCommandCall = true)
    (f : Option FILE) : flushCount f evs = 0 ∧ closeCount f evs = 0 := by
  constructor
  · exact List.count_eq_zero.mpr fun hm => by simpa [Event.isCommandCall] using h _ hm
  · exact List.count_eq_zero.mpr fun hm => by simpa [Event.isCommandCall] using h _ hm

/-- What does hold of the release blocks of `onTransact`, for a parcel with a result receiver and
a command shell that returns: the input stream and the output stream are flushed once and closed
once when they opened, and so is the error stream when the output stream opened as well. -/
theorem onTransact_releases (env : Env) (data : Parcel) (w : World)
    (fin fout ferr : Option FILE) (w3 : World) (rr : IBinder)
    (hs : shellStreams env data w = (fin, fout, ferr, w3))
    (hrr : shellReceiver data = some rr)
    (hcmd : ∀ fi fo fe, fin = some fi → fout = some fo → ferr = some fe →
      ∃ err w4, command env fi fo fe (shellArgs data) w3 = .returned err w4) :
    (∀ f, fin = some f →
      flushCount (some f)
        (since w (onTransact env SHELL_COMMAND_TRANSACTION data w).world) = 1 ∧
      closeCount (some f)
        (since w (onTransact env SHELL_COMMAND_TRANSACTION data w).world) = 1) ∧
    (∀ f, fout = some f →
      flushCount (some f)
        (since w (onTransact env SHELL_COMMAND_TRANSACTION data w).world) = 1 ∧
      closeCount (some f)
        (since w (onTransact env SHELL_COMMAND_TRANSACTION data w).world) = 1) ∧
    (∀ f, ferr = some f → fout ≠ none →
      flushCount (some f)
        (since w (onTransact env SHELL_COMMAND_TRANSACTION data w).world) = 1 ∧
      closeCount (some f)
        (since w (onTransact env SHELL_COMMAND_TRANSACTION data w).world) = 1) := by
  have hw3 : w3 = { w with opens := w.opens + 3 } := by
    rw [← shellStreams_world env data w, hs]
  have hexp := shellStreams_eq env data w
  rw [hs] at hexp
  simp only [Prod.mk.injEq] at hexp
  obtain ⟨hfin, hfout, hferr, -⟩ := hexp
  have hT := onTransact_shell env data w fin fout ferr w3 hs
  rw [hrr] at hT
  simp only [release_blocks] at hT
  have hsince : ∃ (evs : List Event) (c : status_t), (∀ e ∈ evs, e.isCommandCall = true) ∧
      since w (onTransact env SHELL_COMMAND_TRANSACTION data w).world =
        evs ++ (.send rr c ::
          ((if fin ≠ none then [.fflush fin, .fclose fin] else []) ++
          ((if fout ≠ none then [.fflush fout, .fclose fout] else []) ++
            (if fout ≠ none then [.fflush ferr, .fclose ferr] else [])))) := by
    rw [hT]
    rcases fin with _ | fi <;> rcases fout with _ | fo <;> rcases ferr with _ | fe
    case some.some.some =>
      obtain ⟨err, w4, hret⟩ := hcmd fi fo fe rfl rfl rfl
      obtain ⟨evs, -, hcall, hc⟩ := command_frame env fi fo fe (shellArgs data) w3
      rw [hret] at hc
      simp only [Outcome.world] at hc
      refine ⟨evs, err, hcall, ?_⟩
      apply since_self_append
      simp only [hret, Outcome.bind, IResultReceiver.send, emit, Outcome.world]
      simp [hc, hw3]
    all_goals
      refine ⟨[], NO_MEMORY, by simp, ?_⟩
      apply since_self_append
      simp [Outcome.bind, IResultReceiver.send, emit, Outcome.world, hw3]
  obtain ⟨evs, c, hcall, hsince⟩ := hsince
  have hc0 := count_commandCalls evs hcall
  rw [hsince]
  clear hsince hs hw3 hT hcmd
  subst hfin hfout hferr
  simp only [flushCount, closeCount] at hc0 ⊢
  generalize data.readFileDescriptor.2.readFileDescriptor.2.readFileDescriptor.1 = fd3
  generalize data.readFileDescriptor.2.readFileDescriptor.1 = fd2
  generalize data.readFileDescriptor.1 = fd1
  cases env.fdopenOk w.opens fd1 "r" <;> cases env.fdopenOk (w.opens + 1) fd2 "w" <;>
    cases env.fdopenOk (w.opens + 2) fd3 "w" <;>
    simp [List.count_append, (hc0 _).1, (hc0 _).2, List.count_cons]

/-! ## The life of the companion reference -/

theorem run_append_singleton (w : World) (ops : List Op) (op : Op) :
    run w (ops ++ [op]) = step (run w ops) op := by
  simp [run, List.foldl_append]

theorem run_cons (w : World) (ops : List Op) (op : Op) :
    run w (op :: ops) = run (step w op) ops := rfl

theorem run_append (w : World) (ops ops2 : List Op) :
    run w (ops ++ ops2) = run (run w ops) ops2 := by
  simp [run, List.foldl_append]

theorem getStatsCompanionService_frame (env : Env) (w : World) :
    (getStatsCompanionService env w).2.mStatsCompanionService = w.mStatsCompanionService := by
  unfold getStatsCompanionService
  cases env.defaultServiceManager with
  | none => rfl
  | some sm => cases h : sm.checkService "statscompanion" <;> simp [h, emit]

theorem sayHiToStatsCompanion_frame (env : Env) (w : World) :
    (sayHiToStatsCompanion env w).mStatsCompanionService = w.mStatsCompanionService := by
  have h := getStatsCompanionService_frame env w
  unfold sayHiToStatsCompanion
  rcases hg : getStatsCompanionService env w with ⟨b, w2⟩
  rw [hg] at h
  cases b <;> simpa [emit] using h

theorem emit_frame (e : Event) (w : World) :
    (emit e w).mStatsCompanionService = w.mStatsCompanionService := rfl

theorem fdopen_frame (env : Env) (fd : Int) (mode : String) (w : World) :
    (fdopen env fd mode w).2.mStatsCompanionService = w.mStatsCompanionService := by
  unfold fdopen
  split_ifs <;> rfl

theorem dump_frame (env : Env) (fd : Int) (args : List String) (w : World) :
    (dump env fd args w).2.mStatsCompanionService = w.mStatsCompanionService := by
  have hfold : ∀ (out : FILE) (l : List String) (v : World),
      (l.foldl (fun w arg => emit (.ALOGD "   %s" [String8.string arg])
        (emit (.fprintf out (" " ++ String8.string arg)) w))
        v).mStatsCompanionService = v.mStatsCompanionService := by
    intro out l
    induction l with
    | nil => intro v; rfl
    | cons a l ih => intro v; rw [List.foldl_cons, ih]; rfl
  have hf := fdopen_frame env fd "w" w
  unfold dump
  rcases hopen : fdopen env fd "w" w with ⟨_ | out, w2⟩
  · rw [hopen] at hf
    exact hf
  · rw [hopen] at hf
    simp only [emit_frame, hfold]
    exact hf

theorem bind_frame {α β : Type} (o : Outcome α) (k : α → World → Outcome β)
    (hk : ∀ a w, (k a w).world.mStatsCompanionService = w.mStatsCompanionService) :
    (o.bind k).world.mStatsCompanionService = o.world.mStatsCompanionService := by
  cases o with
  | returned a w => exact hk a w
  | died w => rfl

theorem send_frame (rr : Option IBinder) (code : status_t) (w : World) :
    (IResultReceiver.send rr code w).world.mStatsCompanionService =
      w.mStatsCompanionService := by
  cases rr <;> rfl

theorem flushClose_frame (f g : Option FILE) (w : World) :
    (flushClose f g w).world.mStatsCompanionService = w.mStatsCompanionService := by
  unfold flushClose
  split_ifs
  · cases g <;> rfl
  · rfl

theorem command_reference (env : Env) (fi fo fe : FILE) (args : List String) (w : World) :
    (command env fi fo fe args w).world.mStatsCompanionService = w.mStatsCompanionService := by
  obtain ⟨evs, -, -, hc⟩ := command_frame env fi fo fe args w
  rw [hc]

theorem onTransact_shell_frame (env : Env) (data : Parcel) (w : World) :
    (onTransact env SHELL_COMMAND_TRANSACTION data w).world.mStatsCompanionService =
      w.mStatsCompanionService := by
  rw [onTransact_shell env data w (shellStreams env data w).1 (shellStreams env data w).2.1
    (shellStreams env data w).2.2.1 (shellStreams env data w).2.2.2 rfl]
  have hw3 := shellStreams_world env data w
  generalize (shellStreams env data w).1 = fin
  generalize (shellStreams env data w).2.1 = fout
  generalize (shellStreams env data w).2.2.1 = ferr
  generalize (shellStreams env data w).2.2.2 = w3 at hw3
  rw [bind_frame]
  · have hsend : ∀ (fin fout ferr : Option FILE),
        (match fin, fout, ferr with
          | some fi, some fo, some fe =>
            Outcome.bind (command env fi fo fe (shellArgs data) w3) fun err w =>
              IResultReceiver.send (shellReceiver data) err w
          | _, _, _ => IResultReceiver.send (shellReceiver data) NO_MEMORY
              w3).world.mStatsCompanionService = w3.mStatsCompanionService := by
      intro fin fout ferr
      rcases fin with _ | fi <;> rcases fout with _ | fo <;> rcases ferr with _ | fe <;>
        try exact send_frame _ _ _
      show (Outcome.bind _ _).world.mStatsCompanionService = _
      rw [bind_frame _ _ (fun a w => send_frame _ _ _), command_reference]
    rw [hsend, hw3]
  · intro _ w1
    rw [bind_frame, flushClose_frame]
    intro _ w2
    rw [bind_frame, flushClose_frame]
    intro _ w4
    rw [bind_frame, flushClose_frame]
    intro _ w5
    rfl

theorem statsCompanionReady_reference (env : Env) (w : World) :
    (statsCompanionReady env w).2.mStatsCompanionService =
      if env.callingUid = AID_SYSTEM then (lookup env).orElse (fun _ => w.mStatsCompanionService)
      else w.mStatsCompanionService := by
  unfold statsCompanionReady lookup getStatsCompanionService
  by_cases huid : env.callingUid = AID_SYSTEM
  · cases hsm : env.defaultServiceManager with
    | none => simp [huid, emit]
    | some sm =>
      cases hl : sm.checkService "statscompanion" <;>
        simp [huid, hl, emit, AnomalyMonitor.setStatsCompanionService]
  · simp [huid, emit]

theorem step_death (w : World) (who : IBinder) :
    (step w (.binderDied who)).mStatsCompanionService = none := rfl

theorem step_ready (w : World) (env : Env) (h : IBinder) (huid : env.callingUid = AID_SYSTEM)
    (hl : lookup env = some h) :
    (step w (.statsCompanionReady env)).mStatsCompanionService = some h := by
  simp [step, statsCompanionReady_reference, huid, hl]

theorem step_other (w : World) (op : Op) (hd : op.isDeath = false)
    (hr : op.isSuccessfulReady = false) :
    (step w op).mStatsCompanionService = w.mStatsCompanionService := by
  cases op with
  | setProcessor p => rfl
  | shellCommand env data => exact onTransact_shell_frame env data w
  | dump env fd args => exact dump_frame env fd args w
  | informAnomalyAlarmFired env =>
    simp only [step, informAnomalyAlarmFired]
    split_ifs <;> rfl
  | informPollAlarmFired env =>
    simp only [step, informPollAlarmFired]
    split_ifs <;> rfl
  | systemRunning env =>
    simp only [step, systemRunning]
    split_ifs
    · rfl
    · rw [sayHiToStatsCompanion_frame]; rfl
  | sayHiToStatsCompanion env => exact sayHiToStatsCompanion_frame env w
  | statsCompanionReady env =>
    simp only [step, statsCompanionReady_reference]
    simp only [Op.isSuccessfulReady, Bool.and_eq_false_iff, decide_eq_false_iff_not] at hr
    rcases hr with hr | hr
    · simp [hr]
    · cases hl : lookup env with
      | none => simp
      | some h => simp [hl] at hr
  | binderDied who => simp [Op.isDeath] at hd

theorem reference_stays_absent (ops : List Op) :
    ∀ w : World, w.mStatsCompanionService = none →
      (∀ op ∈ ops, op.isSuccessfulReady = false) →
      (run w ops).mStatsCompanionService = none := by
  induction ops with
  | nil => intro w hw _; exact hw
  | cons op ops ih =>
    intro w hw hno
    rw [run_cons]
    apply ih
    · cases hd : op.isDeath with
      | true =>
        cases op <;> simp [Op.isDeath] at hd
        rfl
      | false =>
        rw [step_other w op hd (hno op (List.mem_cons_self _ _))]
        exact hw
    · intro x hx
      exact hno x (List.mem_cons_of_mem _ hx)

theorem reference_origin (w0 : World) (h0 : w0.mStatsCompanionService = none) (ops : List Op) :
    ∀ h, (run w0 ops).mStatsCompanionService = some h →
      ∃ pre env post, ops = pre ++ Op.statsCompanionReady env :: post ∧
        env.callingUid = AID_SYSTEM ∧ lookup env = some h ∧ ∀ op ∈ post, op.isDeath = false := by
  induction ops using List.reverseRecOn with
  | nil =>
    intro h hh
    rw [show run w0 [] = w0 from rfl, h0] at hh
    exact absurd hh (by simp)
  | append_singleton ops op ih =>
    intro h hh
    rw [run_append_singleton] at hh
    cases hd : op.isDeath with
    | true =>
      cases op <;> simp [Op.isDeath] at hd
      rw [step_death] at hh
      exact absurd hh (by simp)
    | false =>
      cases hr : op.isSuccessfulReady with
      | true =>
        cases op <;> simp [Op.isSuccessfulReady] at hr
        rename_i env
        obtain ⟨huid, hsome⟩ := hr
        obtain ⟨h2, hl⟩ := Option.isSome_iff_exists.mp hsome
        rw [step_ready _ env h2 huid hl] at hh
        cases hh
        exact ⟨ops, env, [], rfl, huid, hl, by simp⟩
      | false =>
        rw [step_other _ op hd hr] at hh
        obtain ⟨pre, env, post, rfl, huid, hl, hpost⟩ := ih h hh
        refine ⟨pre, env, post ++ [op], by simp, huid, hl, ?_⟩
        intro x hx
        rcases List.mem_append.mp hx with hx | hx
        · exact hpost x hx
        · rw [List.mem_singleton.mp hx]; exact hd

theorem reference_live (ops : List Op) :
    ∀ (dead : List IBinder) (w : World), lookupsLive dead ops = true →
      (∀ h, w.mStatsCompanionService = some h → h ∉ dead) →
      ∀ h, (run w ops).mStatsCompanionService = some h → h ∉ dead ∧ h ∉ observedDead ops := by
  induction ops with
  | nil =>
    intro dead w _ hw h hh
    exact ⟨hw h hh, by simp [observedDead]⟩
  | cons op ops ih =>
    intro dead w hlive hw h hh
    rw [run_cons] at hh
    cases hd : op.isDeath with
    | true =>
      cases op <;> simp [Op.isDeath] at hd
      rename_i who
      have := ih (who :: dead) _ hlive (by rw [step_death]; simp) h hh
      simp only [List.mem_cons, not_or] at this
      exact ⟨this.1.2, by simp [observedDead]; exact ⟨this.1.1, by simpa [observedDead] using this.2⟩⟩
    | false =>
      have hobs : observedDead (op :: ops) = observedDead ops := by
        cases op <;> simp [Op.isDeath] at hd <;> simp [observedDead]
      rw [hobs]
      cases hr : op.isSuccessfulReady with
      | true =>
        cases op <;> simp [Op.isSuccessfulReady] at hr
        rename_i env
        obtain ⟨huid, hsome⟩ := hr
        obtain ⟨h2, hl⟩ := Option.isSome_iff_exists.mp hsome
        simp only [lookupsLive, huid, hl, if_true, Bool.and_eq_true, decide_eq_true_eq] at hlive
        exact ih dead _ hlive.2 (by rw [step_ready _ env h2 huid hl]; intro x hx; cases hx; exact hlive.1) h hh
      | false =>
        have hlive2 : lookupsLive dead ops = true := by
          cases op <;> simp [Op.isDeath] at hd <;> simp [lookupsLive] at hlive <;>
            first | exact hlive | exact hlive.2
        exact ih dead _ hlive2 (by rw [step_other _ op hd hr]; exact hw) h hh

/-- C10, as stated, fails: when a statsCompanionReady looks up a binder whose death a callback
reported before, that binder is stored again: after statsCompanionReady, binderDied and
statsCompanionReady, each on binder 7, the reference holds binder 7, whose death was reported. -/
theorem companion_reference_dead_binder :
    (run World.initial
      [.statsCompanionReady systemEnv, .binderDied ⟨7⟩,
        .statsCompanionReady systemEnv]).mStatsCompanionService = some ⟨7⟩ ∧
    (⟨7⟩ : IBinder) ∈ observedDead
      [.statsCompanionReady systemEnv, .binderDied ⟨7⟩, .statsCompanionReady systemEnv] ∧
    lookupsLive []
      [.statsCompanionReady systemEnv, .binderDied ⟨7⟩, .statsCompanionReady systemEnv] =
      false := by
  decide

/-- C10, amended: start from a state without companion reference and run any sequence of
operations of the service (statsCompanionReady calls and death callbacks, and every other call as
well).  If the reference then holds a binder `h`, then `h` was looked up by a statsCompanionReady
of AID_SYSTEM after which no death callback ran; and if no statsCompanionReady of the sequence
looks up a binder whose death was reported before it, no death callback of the sequence reported
`h`.  After a death callback the reference is absent, and it is absent after every further
operation up to the next statsCompanionReady that gets through. -/
theorem companion_reference_invariant (w0 : World) (ops : List Op)
    (h0 : w0.mStatsCompanionService = none) :
    (∀ h, (run w0 ops).mStatsCompanionService = some h →
      (∃ pre env post, ops = pre ++ Op.statsCompanionReady env :: post ∧
        env.callingUid = AID_SYSTEM ∧ lookup env = some h ∧ ∀ op ∈ post, op.isDeath = false) ∧
      (lookupsLive [] ops = true → h ∉ observedDead ops)) ∧
    (∀ pre who post, ops = pre ++ Op.binderDied who :: post →
      (∀ op ∈ post, op.isSuccessfulReady = false) →
      (run w0 ops).mStatsCompanionService = none) := by
  refine ⟨fun h hh => ⟨reference_origin w0 h0 ops h hh, fun hlive => ?_⟩, ?_⟩
  · exact (reference_live ops [] w0 hlive (by simp [h0]) h hh).2
  · rintro pre who post rfl hpost
    rw [run_append, run_cons]
    exact reference_stays_absent post _ (step_death _ who) hpost

theorem companion_reference_invariant_witness :
    World.initial.mStatsCompanionService = none ∧
    ((run World.initial [.statsCompanionReady systemEnv]).mStatsCompanionService = some ⟨7⟩ ∧
      lookupsLive [] [.statsCompanionReady systemEnv] = true ∧
      (⟨7⟩ : IBinder) ∉ observedDead [.statsCompanionReady systemEnv]) ∧
    (run World.initial
      [.statsCompanionReady systemEnv, .binderDied ⟨7⟩, .systemRunning systemEnv,
        .statsCompanionReady systemEnvNoPeer]).mStatsCompanionService = none :=
  ⟨rfl,
    ⟨by decide, by decide,
      ((companion_reference_invariant World.initial [.statsCompanionReady systemEnv] rfl).1
        ⟨7⟩ (by decide)).2 (by decide)⟩,
    (companion_reference_invariant World.initial
      [.statsCompanionReady systemEnv, .binderDied ⟨7⟩, .systemRunning systemEnv,
        .statsCompanionReady systemEnvNoPeer] rfl).2
      [.statsCompanionReady systemEnv] ⟨7⟩
      [.systemRunning systemEnv, .statsCompanionReady systemEnvNoPeer] rfl
      (by
        intro op hop
        simp only [List.mem_cons, List.mem_singleton, List.not_mem_nil, or_false] at hop
        rcases hop with rfl | rfl <;> decide)⟩

end Statsd
